import Mathlib

/-!
Shallow embedding of the browser-automation publishing clients of the NewsCreate
repository: `utils/note_post.py` (class NotePoster) and `utils/twitter_bot.py`
(class TwitterBot).

Outcomes of the external collaborators (browser driver, page landmarks, SMTP
transport, screenshot files, mailbox) are supplied by an environment record, one
per class.  Each modelled method returns its Python result, with raised Python
exceptions represented as `Except.error`, together with the list of observable
events it performs (log lines, keystrokes, sleeps, clicks, screenshots, emails
handed to the SMTP transport, driver teardown, process exit).
-/

namespace NewsCreate

/-- Modelled from the spec: `DiagnosticSnapshot` of section 3 (timestamp, current
url, page title, landmark presence map, optional screenshot path).  The source
code never assembles such a value as one record; the type is used only to state
what a spec `LoginFailed` error would carry. -/
structure DiagSnapshot where
  timestamp : String
  current_url : String
  page_title : String
  landmarks : List (String × Bool)
  screenshot_path : Option String
  deriving DecidableEq

/-- Python exceptions crossing the modelled methods.  `loginFailed` is the error
class the spec taxonomy (section 7) names for a failed login, carrying a
diagnostic; the source never raises it. -/
inductive PyError where
  | timeout (msg : String)
  | noSuchElement (msg : String)
  | webDriver (msg : String)
  | typeErr (msg : String)
  | retryErr (msg : String)
  | loginFailed (diag : DiagSnapshot)
  | generic (msg : String)
  deriving DecidableEq

/-- Message text of an exception, as `str(e)` in the source. -/
def pyMsg : PyError → String
  | PyError.timeout m => m
  | PyError.noSuchElement m => m
  | PyError.webDriver m => m
  | PyError.typeErr m => m
  | PyError.retryErr m => m
  | PyError.loginFailed _ => "login failed"
  | PyError.generic m => m

/-- True exactly on the `loginFailed` constructor. -/
def isLoginFailed : PyError → Bool
  | PyError.loginFailed _ => true
  | _ => false

/-- True exactly on `Except.ok`. -/
def exceptOk {α : Type} : Except PyError α → Bool
  | Except.ok _ => true
  | Except.error _ => false

/-- An email message handed to the SMTP transport (`smtp.send_message(msg)` in the
source).  `logExcerpt` is the payload of the attached log-file part as it is
handed to the transport.  Both senders build the part with
`MIMEApplication(f.read(), ...)` and then call `part.set_payload(f.read())`: the
second read happens at end of file and returns empty bytes, which replace the
payload before `encode_base64`, so the part that reaches the transport always
carries an empty payload (`some ""` when the attachment is made, `none` when no
log file is attached). -/
structure Notification where
  from_addr : String
  to_addr : String
  subject : String
  body : String
  attachments : List String
  logExcerpt : Option String
  deriving DecidableEq

/-- Observable events of a run. -/
inductive Ev where
  | log (msg : String)
  | typeChar (field : String) (ch : Char)
  | typeBulk (field : String) (s : String)
  | sleepMs (ms : Nat)
  | backoffSleep (ms : Nat)
  | click (target : String)
  | navigate (url : String)
  | shot (path : String)
  | clearCookies
  | reportFired (subject : String)
  | notify (n : Notification)
  | quitDriver
  | gcCollect
  | exitProcess (code : Nat)
  deriving DecidableEq

/-- Error-report dictionary (`error_info` in the source); absent keys render as
`N/A` in mail bodies. -/
structure ErrorInfo where
  url : Option String := none
  title : Option String := none
  errorDetail : Option String := none
  elementsStatus : List (String × Bool) := []
  memoryUsage : Option Nat := none
  screenshotPath : Option String := none
  deriving DecidableEq

/-- Character-by-character typing with a 0.1 s pause after each character, the
`for char in value: field.send_keys(char); time.sleep(0.1)` loop of both login
flows. -/
def typeSlowlyChars (field : String) : List Char → List Ev
  | [] => []
  | ch :: rest => Ev.typeChar field ch :: Ev.sleepMs 100 :: typeSlowlyChars field rest

/-- Slow typing of a whole string. -/
def typeSlowly (field : String) (s : String) : List Ev :=
  typeSlowlyChars field s.toList

/-- Prepend already-performed events to a result coming from a helper. -/
def withPre {α : Type} (t : List Ev) (p : Except PyError α × List Ev) :
    Except PyError α × List Ev :=
  (p.1, t ++ p.2)

/-- Events kept when asking what reaches logs and the notification channel:
log lines, screenshots, reporter firings and transport sends. -/
def evKeep : Ev → Bool
  | Ev.log _ => true
  | Ev.notify _ => true
  | Ev.reportFired _ => true
  | Ev.shot _ => true
  | _ => false

/-- Projection of a trace to its log-and-notification part. -/
def pj (tr : List Ev) : List Ev := tr.filter evKeep

/-- Subjects of the emails handed to the SMTP transport during a run. -/
def notifySubjects (tr : List Ev) : List String :=
  tr.filterMap fun e => match e with
    | Ev.notify n => some n.subject
    | _ => none

/-- Subjects with which the failure reporter fired (before any transport error). -/
def reportKinds (tr : List Ev) : List String :=
  tr.filterMap fun e => match e with
    | Ev.reportFired k => some k
    | _ => none

/-- Log-file excerpts attached to emails handed to the transport. -/
def logExcerpts (tr : List Ev) : List String :=
  tr.filterMap fun e => match e with
    | Ev.notify n => n.logExcerpt
    | _ => none

/-- Bodies of the emails handed to the transport. -/
def notifyBodies (tr : List Ev) : List String :=
  tr.filterMap fun e => match e with
    | Ev.notify n => some n.body
    | _ => none

/-- Characters typed one by one into a given field during a run. -/
def typedChars (field : String) (tr : List Ev) : List Char :=
  tr.filterMap fun e => match e with
    | Ev.typeChar f ch => if f = field then some ch else none
    | _ => none

/-- Delays slept by the retry decorator between attempts. -/
def backoffs (tr : List Ev) : List Nat :=
  tr.filterMap fun e => match e with
    | Ev.backoffSleep n => some n
    | _ => none

/-- Urls navigated to during a run, in order. -/
def navs (tr : List Ev) : List String :=
  tr.filterMap fun e => match e with
    | Ev.navigate u => some u
    | _ => none

/-- Click targets of a run, in order. -/
def clicks (tr : List Ev) : List String :=
  tr.filterMap fun e => match e with
    | Ev.click t => some t
    | _ => none

/-- Boolean list-front comparison, used to define segment membership. -/
def frontEq {α : Type} [DecidableEq α] : List α → List α → Bool
  | [], _ => true
  | _ :: _, [] => false
  | a :: as, b :: bs => decide (a = b) && frontEq as bs

/-- Does `p` occur as a contiguous segment of the second list? -/
def segIn {α : Type} [DecidableEq α] (p : List α) : List α → Bool
  | [] => List.isEmpty p
  | b :: bs => frontEq p (b :: bs) || segIn p bs

/-- Does `sub` occur as a contiguous substring of `s`? -/
def containsSubstr (s sub : String) : Bool := segIn sub.toList s.toList

/-- Well-formedness predicate for the url strings read back from the browser:
an http or https scheme and a non-empty value. -/
def wf_url (s : String) : Bool :=
  (frontEq "http://".toList s.toList || frontEq "https://".toList s.toList) && !(s == "")

/-- Tenacity `wait_exponential(multiplier, min, max)` delay, in seconds, after the
given 1-based attempt number: `multiplier * 2 ^ attempt` clamped into
`[min, max]`. -/
def wait_exponential_s (multiplier minB maxB attempt : Nat) : Nat :=
  max minB (min (multiplier * 2 ^ attempt) maxB)

/-- `driver.quit()`: succeeds or raises, per the environment. -/
def quit_raw (quitOk : Bool) : Except PyError Unit × List Ev :=
  if quitOk then (Except.ok (), [Ev.quitDriver])
  else (Except.error (PyError.webDriver "quit failed"), [Ev.quitDriver])

/-- `cleanup` of both classes (the two method bodies are textually identical):
if a driver is live, try `driver.quit()` and log any error, always set
`self.driver = None`, then `gc.collect()`.  The result component shows that no
exception leaves the method. -/
def session_cleanup (quitOk : Bool) (driver : Bool) : Except PyError Unit × Bool × List Ev :=
  if driver then
    match quit_raw quitOk with
    | (Except.ok _, ev) => (Except.ok (), false, ev ++ [Ev.gcCollect])
    | (Except.error _, ev) =>
        (Except.ok (), false, ev ++ [Ev.log "Error during driver cleanup"] ++ [Ev.gcCollect])
  else (Except.ok (), false, [Ev.gcCollect])

/-- Process signals for which both classes install a handler. -/
inductive Sig where
  | sigterm
  | sigint
  deriving DecidableEq

/-- Signals registered by `_setup_signal_handlers` (identical in both classes). -/
def registered_signal_handlers : List Sig := [Sig.sigterm, Sig.sigint]

/-- The installed signal handler: log, run `cleanup`, then `sys.exit(0)`. -/
def signal_handler_run (quitOk : Bool) (driver : Bool) : Bool × List Ev :=
  ((session_cleanup quitOk driver).2.1,
    [Ev.log "Received signal to terminate"] ++ (session_cleanup quitOk driver).2.2 ++
      [Ev.exitProcess 0])

/-- `_save_screenshot` shared shape of both classes: only a live driver, a
successful `save_screenshot` call, and an existing file of positive size yield
the path; every other case yields the empty string, and nothing raises. -/
def save_screenshot_core (pathBase : String) (driver saveOk fileEx : Bool) (fileSize : Nat) :
    String × List Ev :=
  if driver then
    if saveOk then
      if fileEx ∧ 0 < fileSize then
        (pathBase, [Ev.shot pathBase, Ev.log "Screenshot saved"])
      else ("", [Ev.log "Screenshot file was not created or is empty"])
    else ("", [Ev.log "Failed to save screenshot"])
  else ("", [Ev.log "Driver not available for screenshot"])

/-- `_check_memory_usage` shared shape: log usage; above 80 percent, save a
screenshot and collect garbage.  Never raises. -/
def check_memory_core (mem : Nat) (shotEv : List Ev) : List Ev :=
  [Ev.log "Memory usage logged"] ++
    (if 80 < mem then [Ev.log "High memory usage detected"] ++ shotEv ++ [Ev.gcCollect]
     else [])

/-- The SMTP session (`SMTP_SSL` connect, `login`, `send_message`): hands the
message to the transport, or raises an authentication or send error. -/
def smtp_send_raw (smtpOk : Bool) (n : Notification) : Except PyError Unit × List Ev :=
  if smtpOk then (Except.ok (), [Ev.notify n, Ev.log "Notification email sent"])
  else (Except.error (PyError.generic "SMTPAuthenticationError"),
        [Ev.log "Connecting to SMTP server"])

/-- Rendering of `elements_status` lines in the mail body. -/
def render_elements : List (String × Bool) → String
  | [] => ""
  | (k, v) :: rest =>
      "- " ++ k ++ ": " ++ (if v then "True" else "False") ++ "\n" ++ render_elements rest

/-- Dictionary access with default `N/A`. -/
def opt_str (o : Option String) : String := o.getD "N/A"

/-- Numeric dictionary access with default `N/A`. -/
def opt_nat (o : Option Nat) : String :=
  match o with
  | some n => toString n
  | none => "N/A"

/-! ## NotePoster (utils/note_post.py) -/

/-- Credentials and addresses NotePoster reads from the environment at
construction (`NOTE_EMAIL`, `NOTE_PASSWORD`, `SMTP_EMAIL`, `SMTP_PASSWORD`,
`NOTIFICATION_EMAIL`). -/
structure NoteCreds where
  email : String
  password : String
  smtp_email : String
  smtp_password : String
  notification_email : String
  deriving DecidableEq

/-- Outcomes of the external collaborators for one NotePoster run.  Each flag
says whether the corresponding wait, navigation or read succeeds; string and
numeric fields are the values the collaborator reports. -/
structure NoteEnv where
  now : String
  setupOk : Bool
  navLoginOk : Bool
  emailFieldFound : Bool
  passwordFieldFound : Bool
  emailRefocusOk : Bool
  loginButtonOk : Bool
  loginLandmark : Bool
  navNewOk : Bool
  titleFieldFound : Bool
  bodyFieldFound : Bool
  publishButtonOk : Bool
  postButtonOk : Bool
  pageReadOk : Bool
  currentUrl : String
  pageTitle : String
  criticalElements : List (String × Bool)
  memoryPercent : Nat
  shotSaveOk : Bool
  shotFileExists : Bool
  shotFileSize : Nat
  quitOk : Bool
  smtpOk : Bool
  logFileExists : Bool
  logFileContent : String
  deriving DecidableEq

/-- Path `_save_screenshot` builds in the temp directory. -/
def note_screenshot_path (env : NoteEnv) (error_type : String) : String :=
  "/tmp/note_error_" ++ error_type ++ "_" ++ env.now ++ ".png"

/-- `NotePoster._save_screenshot`. -/
def note_save_screenshot (env : NoteEnv) (driver : Bool) (error_type : String) :
    String × List Ev :=
  save_screenshot_core (note_screenshot_path env error_type) driver env.shotSaveOk
    env.shotFileExists env.shotFileSize

/-- `NotePoster._check_memory_usage`. -/
def note_check_memory (env : NoteEnv) (driver : Bool) : List Ev :=
  check_memory_core env.memoryPercent (note_save_screenshot env driver "high_memory").2

/-- `NotePoster._check_critical_elements`: `find_elements` presence map, or an
empty map when the session cannot be queried (its own handler returns `{}`). -/
def note_check_critical_elements (env : NoteEnv) : List (String × Bool) :=
  if env.pageReadOk then env.criticalElements else []

/-- Mail body of `_send_error_notification` (the Japanese template, rendered here
with the same interpolated values: error type, time, url, page title, memory
usage, element status lines). -/
def note_mail_body (error_type now : String) (info : ErrorInfo) : String :=
  "An error occurred.\n\nerror type: " ++ error_type ++ "\ntime: " ++ now ++
  "\nURL: " ++ opt_str info.url ++ "\npage title: " ++ opt_str info.title ++
  "\nmemory usage: " ++ opt_nat info.memoryUsage ++ "\n\nelement status:\n" ++
  render_elements info.elementsStatus

/-- `NotePoster._send_error_notification`: build the message (subject
`Note Post Error: <type>`), attach the given screenshots and the log-file part
(whose payload the `set_payload(f.read())` second read leaves empty, see
`Notification`), then send; every SMTP failure is caught and logged, so the
method always returns normally. -/
def note_send_error_notification (c : NoteCreds) (env : NoteEnv) (error_type : String)
    (info : ErrorInfo) (shots : List String) (log_path : Option String) :
    Except PyError Unit × List Ev :=
  let n : Notification :=
    { from_addr := c.smtp_email, to_addr := c.notification_email,
      subject := "Note Post Error: " ++ error_type,
      body := note_mail_body error_type env.now info,
      attachments := shots,
      logExcerpt := match log_path with
        | some _ => if env.logFileExists then some "" else none
        | none => none }
  match (smtp_send_raw env.smtpOk n).1 with
  | Except.ok _ =>
      (Except.ok (), [Ev.reportFired ("Note Post Error: " ++ error_type)] ++
        (smtp_send_raw env.smtpOk n).2)
  | Except.error _ =>
      (Except.ok (), [Ev.reportFired ("Note Post Error: " ++ error_type)] ++
        (smtp_send_raw env.smtpOk n).2 ++
        [Ev.log "Gmail auth or send error logged locally"])

/-- `NotePoster._collect_error_info`: screenshot, then the `error_info`
dictionary, then the `error` notification.  Reading `driver.current_url` on a
dead session raises; the fallback handler reads `current_url` again and
therefore raises too, so the method itself can raise. -/
def note_collect_error_info (c : NoteCreds) (env : NoteEnv) (driver : Bool) :
    Except PyError ErrorInfo × List Ev :=
  let sp := (note_save_screenshot env driver "error").1
  let ev1 := (note_save_screenshot env driver "error").2
  if driver then
    if env.pageReadOk then
      let info : ErrorInfo :=
        { url := some env.currentUrl, title := some env.pageTitle,
          elementsStatus := note_check_critical_elements env,
          memoryUsage := some env.memoryPercent,
          screenshotPath := if sp = "" then none else some sp }
      (Except.ok info,
        ev1 ++ (note_send_error_notification c env "error" info
          (if sp = "" then [] else [sp]) (some "note_poster.log")).2)
    else
      (Except.error (PyError.webDriver "invalid session: failed to read current url"),
        ev1 ++ [Ev.log "Failed to collect error information"])
  else
    let info : ErrorInfo :=
      { url := some "No driver", title := some "No driver", elementsStatus := [],
        memoryUsage := some env.memoryPercent, screenshotPath := none }
    (Except.ok info,
      ev1 ++ (note_send_error_notification c env "error" info [] (some "note_poster.log")).2)

/-- Login page url. -/
def note_login_url : String := "https://note.com/login"

/-- The `TypeError` message Python produces for the malformed
`self._send_error_notification("error")` call in the login failure handler. -/
def noteLoginTypeErrMsg : String :=
  "send_error_notification missing 2 required positional arguments: error_info and screenshot_paths"

/-- The `except` branch of `NotePoster._login`: log, check memory, save a
screenshot, then call `self._send_error_notification("error")` — a call that
omits the two required positional arguments `error_info` and
`screenshot_paths`, so Python raises `TypeError` from inside the handler and
the `return False` below it is unreachable. -/
def note_login_fail (env : NoteEnv) (msg : String) : Except PyError Bool × List Ev :=
  (Except.error (PyError.typeErr noteLoginTypeErrMsg),
    [Ev.log ("Login timeout: " ++ msg)] ++ note_check_memory env true ++
      (note_save_screenshot env true "error").2)

/-- `NotePoster._login`.  The retry decorator on this method is commented out in
the source, so the body runs exactly once. -/
def note_login (c : NoteCreds) (env : NoteEnv) : Except PyError Bool × List Ev :=
  let t0 : List Ev := [Ev.log "Entering login method", Ev.navigate note_login_url]
  if env.navLoginOk then
    let t1 := t0 ++ note_check_memory env true ++ [Ev.clearCookies]
    if env.emailFieldFound then
      let t2 := t1 ++ [Ev.log "Entering email"] ++ typeSlowly "email" c.email ++
        [Ev.sleepMs 2000]
      if env.passwordFieldFound then
        let t3 := t2 ++ [Ev.log "Entering password"] ++ typeSlowly "password" c.password ++
          [Ev.sleepMs 2000]
        if env.emailRefocusOk then
          let t4 := t3 ++ [Ev.click "email_field", Ev.sleepMs 1000]
          if env.loginButtonOk then
            let t5 := t4 ++ [Ev.sleepMs 1000, Ev.click "login_button"]
            if env.loginLandmark then (Except.ok true, t5 ++ [Ev.log "Login successful"])
            else withPre t5 (note_login_fail env "login completion wait timed out")
          else withPre t4 (note_login_fail env "login button not clickable")
        else withPre t3 (note_login_fail env "email field refocus timed out")
      else withPre t2 (note_login_fail env "password field not found")
    else withPre t1 (note_login_fail env "email field not found")
  else withPre t0 (note_login_fail env "navigation to login page failed")

/-- All waits of the NotePoster login flow succeed in this environment. -/
def note_login_ok (env : NoteEnv) : Bool :=
  env.navLoginOk && env.emailFieldFound && env.passwordFieldFound && env.emailRefocusOk &&
  env.loginButtonOk && env.loginLandmark

/-- The `except`-plus-`finally` tail of `post_article`: collect error info (which
sends the `error` notification, and may itself raise), send the
`post_article_failed` notification, return `None`; `cleanup` always runs. -/
def note_post_failure (c : NoteCreds) (env : NoteEnv) (driver : Bool) (t : List Ev) :
    Except PyError (Option String) × Bool × List Ev :=
  match (note_collect_error_info c env driver).1 with
  | Except.error e =>
      (Except.error e, (session_cleanup env.quitOk driver).2.1,
        t ++ (note_collect_error_info c env driver).2 ++ (session_cleanup env.quitOk driver).2.2)
  | Except.ok info =>
      let shots := match info.screenshotPath with
        | some p => [p]
        | none => []
      (Except.ok none, (session_cleanup env.quitOk driver).2.1,
        t ++ (note_collect_error_info c env driver).2 ++ [Ev.log "Failed to post article"] ++
          (note_send_error_notification c env "post_article_failed" info shots
            (some "note_poster.log")).2 ++ (session_cleanup env.quitOk driver).2.2)

/-- `NotePoster.post_article`: driver setup, login, navigation to the editor,
title and body injection, the two publish confirmations, a 5 s settle sleep, the
url read-back, and a success notification; failures route through
`note_post_failure`; `cleanup` runs on every path. -/
def note_post_article (c : NoteCreds) (env : NoteEnv) (article_body title : String) :
    Except PyError (Option String) × Bool × List Ev :=
  let t0 : List Ev := [Ev.log ("Starting article posting process for title: " ++ title)]
  if env.setupOk then
    let t1 := t0 ++ [Ev.log "Chrome driver initialized",
      Ev.log "Driver setup complete in post_article"]
    match (note_login c env).1 with
    | Except.error _ =>
        note_post_failure c env true
          (t1 ++ (note_login c env).2 ++ [Ev.log "Error calling login method"])
    | Except.ok _ =>
      let t2 := t1 ++ (note_login c env).2 ++ [Ev.log "Login method called successfully",
        Ev.navigate "https://note.com/notes/new"]
      if env.navNewOk then
        if env.titleFieldFound then
          if env.bodyFieldFound then
            let t3 := t2 ++ [Ev.log "Title input field found", Ev.log "Body input field found",
              Ev.typeBulk "title" title, Ev.sleepMs 1000, Ev.click "body_field",
              Ev.typeBulk "body" article_body, Ev.sleepMs 1000]
            if env.publishButtonOk then
              let t4 := t3 ++ [Ev.click "publish_button", Ev.log "Publish button clicked"]
              if env.postButtonOk then
                let t5 := t4 ++ [Ev.click "post_button", Ev.log "Post button clicked",
                  Ev.sleepMs 5000]
                if env.pageReadOk then
                  let info : ErrorInfo :=
                    { url := some env.currentUrl, title := some env.pageTitle,
                      memoryUsage := some env.memoryPercent }
                  (Except.ok (some env.currentUrl), (session_cleanup env.quitOk true).2.1,
                    t5 ++ [Ev.log ("Article posted successfully: " ++ env.currentUrl)] ++
                      (note_send_error_notification c env "post_article_success" info []
                        (some "note_poster.log")).2 ++ (session_cleanup env.quitOk true).2.2)
                else note_post_failure c env true (t5 ++ [Ev.log "failed to read current url"])
              else note_post_failure c env true
                (t4 ++ [Ev.log "Timeout waiting for elements"] ++
                  (note_save_screenshot env true "timeout").2)
            else note_post_failure c env true
              (t3 ++ [Ev.log "Timeout waiting for elements"] ++
                (note_save_screenshot env true "timeout").2)
          else note_post_failure c env true
            (t2 ++ [Ev.log "Title input field found", Ev.log "Timeout waiting for elements"] ++
              (note_save_screenshot env true "timeout").2)
        else note_post_failure c env true
          (t2 ++ [Ev.log "Timeout waiting for elements"] ++
            (note_save_screenshot env true "timeout").2)
      else note_post_failure c env true (t2 ++ [Ev.log "navigation to new note page failed"])
  else
    note_post_failure c env false (t0 ++ [Ev.log "Failed to setup Chrome driver"])

/-- All publish-pipeline steps of `post_article` up to and including the final
post click succeed in this environment (so the settle-and-url-read step is
reached). -/
def note_all_steps_ok (env : NoteEnv) : Bool :=
  env.setupOk && env.navLoginOk && env.emailFieldFound && env.passwordFieldFound &&
  env.emailRefocusOk && env.loginButtonOk && env.loginLandmark && env.navNewOk &&
  env.titleFieldFound && env.bodyFieldFound && env.publishButtonOk && env.postButtonOk

/-! ## TwitterBot (utils/twitter_bot.py) -/

/-- Credentials and addresses TwitterBot reads from the environment
(`TWITTER_ID`, `TWITTER_USER_ID`, `TWITTER_PASSWORD`, `SMTP_EMAIL`,
`SMTP_PASSWORD`, `NOTIFICATION_EMAIL`, `GMAIL_ADDRESS`, `GMAIL_APP_PASSWORD`). -/
structure TwCreds where
  twitter_id : String
  twitter_user_id : String
  twitter_password : String
  smtp_email : String
  smtp_password : String
  notification_email : String
  gmail_address : String
  gmail_app_password : String
  deriving DecidableEq

/-- Outcomes of the external collaborators for one TwitterBot run. -/
structure TwEnv where
  now : String
  setupOk : Bool
  navLoginOk : Bool
  usernameFieldFound : Bool
  userIdPromptShown : Bool
  passwordFieldFound : Bool
  confirmationPromptShown : Bool
  confirmationCode : Option String
  confirmationOk : Bool
  loginLandmark : Bool
  postButtonOk : Bool
  tweetAreaOk : Bool
  tweetButtonOk : Bool
  pageReadOk : Bool
  currentUrl : String
  memoryPercent : Nat
  shotSaveOk : Bool
  shotFileExists : Bool
  shotFileSize : Nat
  quitOk : Bool
  smtpOk : Bool
  logFileExists : Bool
  logFileContent : String
  deriving DecidableEq

/-- The `not all([...])` guard of `_send_notification_email`: all three SMTP
settings must be non-empty. -/
def tw_smtp_configured (c : TwCreds) : Bool :=
  !(c.smtp_email == "" || c.smtp_password == "" || c.notification_email == "")

/-- Path `_save_screenshot` builds in the temp directory. -/
def tw_screenshot_path (env : TwEnv) (error_type : String) : String :=
  "/tmp/twitter_error_" ++ error_type ++ "_" ++ env.now ++ ".png"

/-- `TwitterBot._save_screenshot`. -/
def tw_save_screenshot (env : TwEnv) (driver : Bool) (error_type : String) :
    String × List Ev :=
  save_screenshot_core (tw_screenshot_path env error_type) driver env.shotSaveOk
    env.shotFileExists env.shotFileSize

/-- `TwitterBot._check_memory_usage`. -/
def tw_check_memory (env : TwEnv) (driver : Bool) : List Ev :=
  check_memory_core env.memoryPercent (tw_save_screenshot env driver "high_memory").2

/-- `TwitterBot._collect_screenshots`: keep the non-empty paths. -/
def tw_shots (l : List String) : List String := l.filter (fun s => !(s == ""))

/-- `TwitterBot._send_notification_email`: skip when SMTP settings are missing;
otherwise build the message, attach screenshots and the log-file part (whose
payload the `set_payload(f.read())` second read leaves empty, see
`Notification`), and send; every transport failure is caught and logged, so the
method always returns normally. -/
def tw_send_notification_email (c : TwCreds) (env : TwEnv) (subject body : String)
    (shots : List String) (log_path : Option String) : Except PyError Unit × List Ev :=
  if tw_smtp_configured c then
    let n : Notification :=
      { from_addr := c.smtp_email, to_addr := c.notification_email, subject := subject,
        body := body, attachments := shots,
        logExcerpt := match log_path with
          | some _ => if env.logFileExists then some "" else none
          | none => none }
    match (smtp_send_raw env.smtpOk n).1 with
    | Except.ok _ => (Except.ok (), [Ev.reportFired subject] ++ (smtp_send_raw env.smtpOk n).2)
    | Except.error _ =>
        (Except.ok (), [Ev.reportFired subject] ++ (smtp_send_raw env.smtpOk n).2 ++
          [Ev.log "mail send error logged locally"])
  else (Except.ok (), [Ev.log "SMTP credentials not set. Skipping email."])

/-- Mail body of `_send_error_notification` (error type, time, url, error
detail, memory usage). -/
def tw_mail_body (error_type now : String) (memoryPercent : Nat) (info : ErrorInfo) : String :=
  "An error occurred.\n\nerror type: " ++ error_type ++ "\ntime: " ++ now ++
  "\nURL: " ++ opt_str info.url ++ "\nerror detail: " ++ opt_str info.errorDetail ++
  "\nmemory usage: " ++ toString memoryPercent

/-- `TwitterBot._send_error_notification`: subject `Twitter Bot Error: <type>`
around `_send_notification_email`. -/
def tw_send_error_notification (c : TwCreds) (env : TwEnv) (error_type : String)
    (info : ErrorInfo) (shots : List String) (log_path : Option String) :
    Except PyError Unit × List Ev :=
  tw_send_notification_email c env ("Twitter Bot Error: " ++ error_type)
    (tw_mail_body error_type env.now env.memoryPercent info) shots log_path

/-- `self.driver.current_url if self.driver else "N/A"`: raises on a dead
session, else the reported url, and `"N/A"` without a driver. -/
def tw_read_url (env : TwEnv) (driver : Bool) : Except PyError String :=
  if driver then
    if env.pageReadOk then Except.ok env.currentUrl
    else Except.error (PyError.webDriver "invalid session: failed to read current url")
  else Except.ok "N/A"

/-- `TwitterBot._get_twitter_confirmation_code`: without the Gmail settings it
returns `None`; otherwise it polls the mailbox (log lines include the Gmail
account name) and returns whatever code the mailbox yields.  All IMAP errors
are swallowed into `None`. -/
def tw_get_confirmation_code (c : TwCreds) (env : TwEnv) : Option String × List Ev :=
  if c.gmail_address == "" || c.gmail_app_password == "" then
    (none, [Ev.log "GMAIL_ADDRESS or GMAIL_APP_PASSWORD not set. Cannot retrieve confirmation code."])
  else
    (env.confirmationCode,
      [Ev.log ("Attempting to connect to Gmail IMAP server for user: " ++ c.gmail_address)] ++
        (match env.confirmationCode with
          | some code => [Ev.log ("Extracted confirmation code: " ++ code)]
          | none => [Ev.log "No Twitter confirmation email found in INBOX."]) ++
        [Ev.log "Logged out from Gmail IMAP server."])

/-- A typed `except` branch inside `_login` or `post_tweet`: save a screenshot,
build `error_info` (whose `current_url` read can itself raise on a dead
session), send the step notification, and re-raise.  The result is always an
error: either the step error passed in, or the url-read error. -/
def tw_error_branch (c : TwCreds) (env : TwEnv) (error_type shot_name : String)
    (prior_shots : List String) (raised : PyError) (msg : String) : PyError × List Ev :=
  let sp := (tw_save_screenshot env true shot_name).1
  let ev1 := (tw_save_screenshot env true shot_name).2
  match tw_read_url env true with
  | Except.error e2 => (e2, ev1)
  | Except.ok u =>
      let info : ErrorInfo :=
        { url := some u, errorDetail := some msg,
          screenshotPath := if sp = "" then none else some sp }
      (raised,
        ev1 ++ (tw_send_error_notification c env error_type info
          (prior_shots ++ (if sp = "" then [] else [sp])) (some "twitter_bot.log")).2)

/-- Login page url of the Twitter flow. -/
def tw_login_url : String := "https://twitter.com/i/flow/login"

/-- The body of `TwitterBot._login` (one attempt, without the outer handler and
the retry decorator): navigation, screenshots, slow typing of the id and of the
optional user id, the ActionChains bulk send of the password, the
screenshots-after-login-attempt email, then the confirmation-code or landmark
completion wait.  A confirmation-entry timeout is re-raised by its handler and
caught by the completion handler, which then waits for the standard landmarks. -/
def tw_login_body (c : TwCreds) (env : TwEnv) : Except PyError Bool × List Ev :=
  let t0 : List Ev := [Ev.log "Attempting to login to Twitter", Ev.navigate tw_login_url]
  if env.navLoginOk then
    let s1 := (tw_save_screenshot env true "login_initial_load").1
    let s2 := (tw_save_screenshot env true "login_after_page_load").1
    let t1 := t0 ++ (tw_save_screenshot env true "login_initial_load").2 ++
      (tw_save_screenshot env true "login_after_page_load").2 ++
      [Ev.click "body", Ev.sleepMs 1000] ++ tw_check_memory env true ++ [Ev.clearCookies]
    if env.usernameFieldFound then
      let t2 := t1 ++ [Ev.log "Entering username or email"] ++
        typeSlowly "username" c.twitter_id ++ [Ev.sleepMs 2000, Ev.click "username_return"]
      let t3 := t2 ++
        (if env.userIdPromptShown then
          typeSlowly "user_id" c.twitter_user_id ++ [Ev.sleepMs 2000, Ev.click "user_id_return"]
        else [Ev.log "No user ID verification required or field not found within timeout"]) ++
        [Ev.sleepMs 3000]
      if env.passwordFieldFound then
        let s3 := (tw_save_screenshot env true "before_password_input").1
        let s4 := (tw_save_screenshot env true "after_password_input").1
        let s5 := (tw_save_screenshot env true "before_login_click").1
        let s6 := (tw_save_screenshot env true "after_login_click").1
        let t4 := t3 ++ (tw_save_screenshot env true "before_password_input").2 ++
          [Ev.click "password_field", Ev.typeBulk "password" c.twitter_password] ++
          (tw_save_screenshot env true "after_password_input").2 ++ [Ev.sleepMs 4000] ++
          (tw_save_screenshot env true "before_login_click").2 ++
          [Ev.click "password_return", Ev.sleepMs 4000] ++
          (tw_save_screenshot env true "after_login_click").2
        let shotsAll := tw_shots [s1, s2, s3, s4, s5, s6]
        let t5 := t4 ++
          (if shotsAll.isEmpty then [Ev.log "No screenshots to send after login attempt"]
          else (tw_send_notification_email c env "Twitter Bot: Screenshots After Login Attempt"
            "screenshots taken just after the login attempt" shotsAll none).2)
        if env.confirmationPromptShown then
          match (tw_get_confirmation_code c env).1 with
          | some code =>
            let t6 := t5 ++ (tw_get_confirmation_code c env).2 ++
              [Ev.log ("Retrieved confirmation code: " ++ code),
                Ev.typeBulk "confirmation_code" code, Ev.click "next_button"]
            if env.confirmationOk then
              (Except.ok true, t6 ++ [Ev.log "Successfully passed confirmation screen and logged in"])
            else
              let evB := (tw_error_branch c env "Confirmation Timeout" "confirmation_timeout"
                shotsAll (PyError.timeout "Timeout while entering confirmation code")
                "Timeout while entering confirmation code").2
              if env.pageReadOk then
                if env.loginLandmark then
                  (Except.ok true, t6 ++ evB ++ [Ev.log "Standard login completion elements found"])
                else
                  withPre (t6 ++ evB)
                    (let p := tw_error_branch c env "Login Completion Timeout (No Confirmation)"
                      "login_completion_timeout" shotsAll
                      (PyError.timeout "Timeout waiting for standard login completion elements")
                      "Timeout waiting for standard login completion elements"
                    (Except.error p.1, p.2))
              else
                (Except.error (PyError.webDriver "invalid session: failed to read current url"),
                  t6 ++ evB ++ (tw_save_screenshot env true "login_completion_error").2)
          | none =>
            withPre (t5 ++ (tw_get_confirmation_code c env).2 ++
                [Ev.log "Confirmation code not retrieved from email"])
              (let p := tw_error_branch c env "Login Completion Error" "login_completion_error"
                shotsAll (PyError.generic "Confirmation code not retrieved from email")
                "Confirmation code not retrieved from email"
              (Except.error p.1, p.2))
        else
          if env.loginLandmark then
            (Except.ok true, t5 ++ [Ev.log "Standard login completion elements found"])
          else
            withPre t5
              (let p := tw_error_branch c env "Login Completion Timeout (No Confirmation)"
                "login_completion_timeout" shotsAll
                (PyError.timeout "Timeout waiting for standard login completion elements")
                "Timeout waiting for standard login completion elements"
              (Except.error p.1, p.2))
      else
        withPre t3
          (let p := tw_error_branch c env "Password Input Timeout" "password_input_timeout"
            (tw_shots [s1, s2]) (PyError.timeout "Timeout waiting for password input field")
            "Timeout waiting for password input field"
          (Except.error p.1, p.2))
    else
      withPre t1
        (let p := tw_error_branch c env "Username/Email Timeout" "username_email_timeout"
          (tw_shots [s1, s2]) (PyError.timeout "Timeout waiting for username or email input field")
          "Timeout waiting for username or email input field"
        (Except.error p.1, p.2))
  else (Except.error (PyError.webDriver "navigation to login page failed"), t0)

/-- One attempt of the TwitterBot login body ends in `CONFIRMED` in this
environment: every wait up to the password entry succeeds, and then either the
confirmation-code path completes (code available and either the code entry
succeeds or, after its handler re-raises, the standard landmark wait succeeds)
or the standard landmark appears. -/
def tw_login_body_ok (c : TwCreds) (env : TwEnv) : Bool :=
  env.navLoginOk && env.usernameFieldFound && env.passwordFieldFound &&
    (if env.confirmationPromptShown then
      (!(c.gmail_address == "" || c.gmail_app_password == "") && env.confirmationCode.isSome) &&
        (env.confirmationOk || (env.pageReadOk && env.loginLandmark))
    else env.loginLandmark)

/-- One attempt of `TwitterBot._login` including its outer handler: on any body
error, check memory, save the `login_general_error` screenshot, build
`error_info` (its url read can raise on a dead session), send the
`Login Failed` notification, and re-raise. -/
def tw_login_once (c : TwCreds) (env : TwEnv) : Except PyError Bool × List Ev :=
  match (tw_login_body c env).1 with
  | Except.ok b => (Except.ok b, (tw_login_body c env).2)
  | Except.error e =>
    let sp := (tw_save_screenshot env true "login_general_error").1
    let ev1 := (tw_login_body c env).2 ++ [Ev.log "Login failed"] ++ tw_check_memory env true ++
      (tw_save_screenshot env true "login_general_error").2
    match tw_read_url env true with
    | Except.error e2 => (Except.error e2, ev1)
    | Except.ok u =>
      let info : ErrorInfo :=
        { url := some u, errorDetail := some (pyMsg e),
          screenshotPath := if sp = "" then none else some sp }
      (Except.error e,
        ev1 ++ (tw_send_error_notification c env "Login Failed" info
          (if sp = "" then [] else [sp]) (some "twitter_bot.log")).2)

/-- `TwitterBot._login` with its tenacity decorator
`retry(stop=stop_after_attempt(3), wait=wait_exponential(multiplier=1, min=4, max=10))`:
up to three attempts, with the exponential delay slept between failed attempts,
and a `RetryError` after the third failure.  The environment determines the
outcome of an attempt, so the three attempts behave identically and the wrapper
is written with one body evaluation: success on the first attempt, or three
failing attempts with the two backoff delays between them. -/
def tw_login (c : TwCreds) (env : TwEnv) : Except PyError Bool × List Ev :=
  match (tw_login_once c env).1 with
  | Except.ok b => (Except.ok b, (tw_login_once c env).2)
  | Except.error _ =>
      (Except.error (PyError.retryErr "RetryError"),
        (tw_login_once c env).2 ++
          [Ev.backoffSleep (wait_exponential_s 1 4 10 1 * 1000)] ++
          (tw_login_once c env).2 ++
          [Ev.backoffSleep (wait_exponential_s 1 4 10 2 * 1000)] ++
          (tw_login_once c env).2)

/-- The `except`-plus-`finally` tail of `post_tweet`: check memory, screenshot,
build `error_info` (url read can raise without being caught), send the
`Tweet Post Failed` notification, return `False`; `cleanup` always runs. -/
def tw_post_outer (c : TwCreds) (env : TwEnv) (driver : Bool) (e : PyError) (t : List Ev) :
    Except PyError Bool × Bool × List Ev :=
  let sp := (tw_save_screenshot env driver "post_tweet_error").1
  let t1 := t ++ [Ev.log "Failed to post tweet"] ++ tw_check_memory env driver ++
    (tw_save_screenshot env driver "post_tweet_error").2
  match tw_read_url env driver with
  | Except.error e2 =>
      (Except.error e2, (session_cleanup env.quitOk driver).2.1,
        t1 ++ (session_cleanup env.quitOk driver).2.2)
  | Except.ok u =>
      let info : ErrorInfo :=
        { url := some u, errorDetail := some (pyMsg e),
          screenshotPath := if sp = "" then none else some sp }
      (Except.ok false, (session_cleanup env.quitOk driver).2.1,
        t1 ++ (tw_send_error_notification c env "Tweet Post Failed" info
          (if sp = "" then [] else [sp]) (some "twitter_bot.log")).2 ++
          (session_cleanup env.quitOk driver).2.2)

/-- A failing publish step of `post_tweet`: its typed handler saves a
screenshot, sends the step notification and re-raises; the re-raised (or
handler-raised) error then runs `tw_post_outer`. -/
def tw_step_fail (c : TwCreds) (env : TwEnv) (error_type shot_name msg : String)
    (t : List Ev) : Except PyError Bool × Bool × List Ev :=
  let sp := (tw_save_screenshot env true shot_name).1
  let ev1 := (tw_save_screenshot env true shot_name).2
  match tw_read_url env true with
  | Except.error e2 => tw_post_outer c env true e2 (t ++ ev1)
  | Except.ok u =>
      let info : ErrorInfo :=
        { url := some u, errorDetail := some msg,
          screenshotPath := if sp = "" then none else some sp }
      tw_post_outer c env true (PyError.timeout msg)
        (t ++ ev1 ++ (tw_send_error_notification c env error_type info
          (if sp = "" then [] else [sp]) (some "twitter_bot.log")).2)

/-- `TwitterBot.post_tweet`: driver setup (whose own handler sends a
notification on failure), login with retry, the post button, the tweet text
area (title and url as one bulk send), the final tweet button, a 10 s settle
sleep, and a success notification; `cleanup` runs on every path. -/
def tw_post_tweet (c : TwCreds) (env : TwEnv) (title url : String) :
    Except PyError Bool × Bool × List Ev :=
  let t0 : List Ev := [Ev.log ("Starting tweet posting process for title: " ++ title)]
  if env.setupOk then
    let t1 := t0 ++ [Ev.log "Driver setup complete in post_tweet"]
    match (tw_login c env).1 with
    | Except.error e => tw_post_outer c env true e (t1 ++ (tw_login c env).2)
    | Except.ok _ =>
      let t2 := t1 ++ (tw_login c env).2 ++ [Ev.sleepMs 5000]
      if env.postButtonOk then
        let t3 := t2 ++ [Ev.click "tweet_post_button", Ev.sleepMs 3000]
        if env.tweetAreaOk then
          let t4 := t3 ++ [Ev.typeBulk "tweet" (title ++ "\n" ++ url), Ev.sleepMs 2000]
          if env.tweetButtonOk then
            let t5 := t4 ++ [Ev.click "tweet_button", Ev.sleepMs 10000,
              Ev.log "Tweet posting process finished"]
            (Except.ok true, (session_cleanup env.quitOk true).2.1,
              t5 ++ (tw_send_notification_email c env "Twitter Post Success"
                "the tweet was posted successfully" [] (some "twitter_bot.log")).2 ++
                (session_cleanup env.quitOk true).2.2)
          else tw_step_fail c env "Final Tweet Button Timeout" "final_tweet_button_timeout"
            "Timeout waiting for final tweet button" t4
        else tw_step_fail c env "Tweet Area Timeout" "tweet_area_timeout"
          "Timeout waiting for tweet text area" t3
      else tw_step_fail c env "Tweet Post Button Timeout" "post_button_timeout"
        "Timeout waiting for tweet post button" t2
  else
    let evN := (tw_send_error_notification c env "Driver Setup Failed"
      { errorDetail := some "failed to start chrome" } [] none).2
    tw_post_outer c env false (PyError.webDriver "failed to start chrome")
      (t0 ++ [Ev.log "Failed to setup Chrome driver"] ++ evN)

/-! ## Concrete inputs for witnesses and counterexamples -/

/-- Concrete NotePoster credentials. -/
def noteCreds0 : NoteCreds :=
  { email := "user@example.com", password := "hunter2", smtp_email := "smtp@example.com",
    smtp_password := "smtppw", notification_email := "ops@example.com" }

/-- A NotePoster environment in which every collaborator succeeds. -/
def noteEnvOk : NoteEnv :=
  { now := "20250101_000000", setupOk := true, navLoginOk := true, emailFieldFound := true,
    passwordFieldFound := true, emailRefocusOk := true, loginButtonOk := true,
    loginLandmark := true, navNewOk := true, titleFieldFound := true, bodyFieldFound := true,
    publishButtonOk := true, postButtonOk := true, pageReadOk := true,
    currentUrl := "https://note.com/user/n/abc123", pageTitle := "My Post",
    criticalElements := [("email_field", false), ("note_header", true)],
    memoryPercent := 10, shotSaveOk := true, shotFileExists := true, shotFileSize := 100,
    quitOk := true, smtpOk := true, logFileExists := true,
    logFileContent := "2025 INFO session log line; password hunter2 was typed" }

/-- Same environment, but the logged-in landmark never appears. -/
def noteEnvLoginFail : NoteEnv := { noteEnvOk with loginLandmark := false }

/-- Same environment, but the email field never appears. -/
def noteEnvEmailFail : NoteEnv := { noteEnvOk with emailFieldFound := false }

/-- Same environment, but every `driver.current_url` read raises (dead browser
session at the url read-back). -/
def noteEnvPageReadFail : NoteEnv := { noteEnvOk with pageReadOk := false }

/-- Concrete TwitterBot credentials. -/
def twCreds0 : TwCreds :=
  { twitter_id := "newsbot", twitter_user_id := "newsbot_id", twitter_password := "tw_secret",
    smtp_email := "smtp@example.com", smtp_password := "smtppw",
    notification_email := "ops@example.com", gmail_address := "inbox@example.com",
    gmail_app_password := "apppw" }

/-- A TwitterBot environment in which every collaborator succeeds (no
confirmation-code screen). -/
def twEnvOk : TwEnv :=
  { now := "20250101_000000", setupOk := true, navLoginOk := true,
    usernameFieldFound := true, userIdPromptShown := true, passwordFieldFound := true,
    confirmationPromptShown := false, confirmationCode := none, confirmationOk := false,
    loginLandmark := true, postButtonOk := true, tweetAreaOk := true, tweetButtonOk := true,
    pageReadOk := true, currentUrl := "https://twitter.com/home", memoryPercent := 10,
    shotSaveOk := true, shotFileExists := true, shotFileSize := 100, quitOk := true,
    smtpOk := true, logFileExists := true,
    logFileContent := "2025 INFO twitter bot log line" }

/-- Same environment, but the logged-in landmark never appears. -/
def twEnvLoginFail : TwEnv := { twEnvOk with loginLandmark := false }

/-- NotePoster credentials differing from `noteCreds0` in every secret but
agreeing on the operator-facing routing fields. -/
def noteCredsAlt : NoteCreds :=
  { email := "other@example.com", password := "different-secret",
    smtp_email := "smtp@example.com", smtp_password := "otherpw",
    notification_email := "ops@example.com" }

/-- TwitterBot credentials differing from `twCreds0` in every secret but
agreeing on the routing fields, the SMTP-configured test, the Gmail account
name and the presence of the app password. -/
def twCredsAlt : TwCreds :=
  { twitter_id := "otherbot", twitter_user_id := "otherbot_id",
    twitter_password := "other_secret", smtp_email := "smtp@example.com",
    smtp_password := "otherpw", notification_email := "ops@example.com",
    gmail_address := "inbox@example.com", gmail_app_password := "otherapppw" }

/-! ## Helper lemmas -/

theorem frontEq_self_append {α : Type} [DecidableEq α] (p y : List α) :
    frontEq p (p ++ y) = true := by
  induction p with
  | nil => rfl
  | cons a as ih => simp [frontEq, ih]

theorem segIn_append_left {α : Type} [DecidableEq α] (p y : List α) :
    segIn p (p ++ y) = true := by
  cases p with
  | nil => cases y <;> simp [segIn, frontEq]
  | cons a as =>
    have h := frontEq_self_append (a :: as) y
    simp only [List.cons_append] at h
    simp [segIn, h]

theorem segIn_cons {α : Type} [DecidableEq α] (p : List α) (b : α) (l : List α)
    (h : segIn p l = true) : segIn p (b :: l) = true := by
  simp [segIn, h]

theorem segIn_append {α : Type} [DecidableEq α] (p x l : List α)
    (h : segIn p l = true) : segIn p (x ++ l) = true := by
  induction x with
  | nil => simpa using h
  | cons b bs ih => simpa [List.cons_append] using segIn_cons p b (bs ++ l) ih

theorem session_cleanup_driver (q d : Bool) : (session_cleanup q d).2.1 = false := by
  cases d <;> cases q <;> rfl

theorem session_cleanup_ok (q d : Bool) : (session_cleanup q d).1 = Except.ok () := by
  cases d <;> cases q <;> rfl

theorem session_cleanup_quit_mem (q : Bool) :
    Ev.quitDriver ∈ (session_cleanup q true).2.2 := by
  cases q <;> decide

theorem note_post_failure_driver (c : NoteCreds) (env : NoteEnv) (d : Bool) (t : List Ev) :
    (note_post_failure c env d t).2.1 = false := by
  unfold note_post_failure
  rcases h : note_collect_error_info c env d with ⟨r, ev⟩
  cases r <;> simp [session_cleanup_driver]

theorem note_post_failure_quit_mem (c : NoteCreds) (env : NoteEnv) (t : List Ev) :
    Ev.quitDriver ∈ (note_post_failure c env true t).2.2 := by
  unfold note_post_failure
  rcases h : note_collect_error_info c env true with ⟨r, ev⟩
  cases r <;> simp [List.mem_append, session_cleanup_quit_mem]

theorem note_login_result (c : NoteCreds) (env : NoteEnv) :
    (note_login c env).1 =
      (if note_login_ok env = true then Except.ok true
       else Except.error (PyError.typeErr noteLoginTypeErrMsg)) := by
  unfold note_login note_login_fail withPre note_login_ok
  repeat' split <;> simp_all

theorem note_post_failure_result (c : NoteCreds) (env : NoteEnv) (d : Bool) (t : List Ev) :
    (note_post_failure c env d t).1 =
      (if d = true then
        (if env.pageReadOk = true then Except.ok none
         else Except.error (PyError.webDriver "invalid session: failed to read current url"))
       else Except.ok none) := by
  unfold note_post_failure note_collect_error_info
  cases d <;> cases h : env.pageReadOk <;> simp [h]

theorem note_post_article_result (c : NoteCreds) (env : NoteEnv) (ab ti : String) :
    (note_post_article c env ab ti).1 =
      (if env.pageReadOk = true then
        (if note_all_steps_ok env = true then Except.ok (some env.currentUrl)
         else Except.ok none)
       else
        (if env.setupOk = true then
          Except.error (PyError.webDriver "invalid session: failed to read current url")
         else Except.ok none)) := by
  unfold note_post_article
  rw [note_login_result]
  unfold note_all_steps_ok note_login_ok
  repeat' split <;> first
    | rfl
    | simp_all [note_post_failure_result]
    | skip

theorem tw_post_outer_result (c : TwCreds) (env : TwEnv) (d : Bool) (e : PyError)
    (t : List Ev) :
    (tw_post_outer c env d e t).1 =
      (if d = true then
        (if env.pageReadOk = true then Except.ok false
         else Except.error (PyError.webDriver "invalid session: failed to read current url"))
       else Except.ok false) := by
  unfold tw_post_outer tw_read_url
  cases d <;> cases h : env.pageReadOk <;> simp [h]

theorem tw_step_fail_result (c : TwCreds) (env : TwEnv) (et sn m : String) (t : List Ev) :
    (tw_step_fail c env et sn m t).1 =
      (if env.pageReadOk = true then Except.ok false
       else Except.error (PyError.webDriver "invalid session: failed to read current url")) := by
  unfold tw_step_fail
  cases h : tw_read_url env true <;>
    simp_all [tw_post_outer_result, tw_read_url]

theorem tw_login_body_ok_true (c : TwCreds) (env : TwEnv)
    (h : tw_login_body_ok c env = true) : (tw_login_body c env).1 = Except.ok true := by
  unfold tw_login_body_ok at h
  unfold tw_login_body tw_error_branch withPre tw_get_confirmation_code tw_read_url
  dsimp only
  cases h1 : env.navLoginOk <;> cases h2 : env.usernameFieldFound <;>
    cases h3 : env.passwordFieldFound <;> cases hc : env.confirmationPromptShown <;>
    cases hg : (c.gmail_address == "" || c.gmail_app_password == "") <;>
    cases hcc : env.confirmationCode <;> cases h4 : env.confirmationOk <;>
    cases h5 : env.pageReadOk <;> cases h6 : env.loginLandmark <;> simp_all

set_option maxHeartbeats 2000000 in
theorem tw_login_body_ok_false (c : TwCreds) (env : TwEnv)
    (h : tw_login_body_ok c env = false) : exceptOk (tw_login_body c env).1 = false := by
  unfold tw_login_body_ok at h
  unfold tw_login_body tw_error_branch withPre tw_get_confirmation_code tw_read_url exceptOk
  dsimp only
  cases h1 : env.navLoginOk <;> cases h2 : env.usernameFieldFound <;>
    cases h3 : env.passwordFieldFound <;> cases hc : env.confirmationPromptShown <;>
    cases hg : (c.gmail_address == "" || c.gmail_app_password == "") <;>
    cases hcc : env.confirmationCode <;> cases h4 : env.confirmationOk <;>
    cases h5 : env.pageReadOk <;> cases h6 : env.loginLandmark <;> simp_all

theorem tw_login_once_ok (c : TwCreds) (env : TwEnv)
    (h : tw_login_body_ok c env = true) : (tw_login_once c env).1 = Except.ok true := by
  unfold tw_login_once
  rw [tw_login_body_ok_true c env h]

theorem tw_login_once_err (c : TwCreds) (env : TwEnv)
    (h : tw_login_body_ok c env = false) : exceptOk (tw_login_once c env).1 = false := by
  have hb := tw_login_body_ok_false c env h
  unfold tw_login_once
  cases hx : (tw_login_body c env).1 with
  | ok b => rw [hx] at hb; simp [exceptOk] at hb
  | error e =>
    dsimp only
    cases hr : tw_read_url env true <;> simp [hr, exceptOk]

theorem tw_login_result_ok (c : TwCreds) (env : TwEnv)
    (h : tw_login_body_ok c env = true) : (tw_login c env).1 = Except.ok true := by
  unfold tw_login
  rw [tw_login_once_ok c env h]

theorem tw_login_result_err (c : TwCreds) (env : TwEnv)
    (h : tw_login_body_ok c env = false) :
    (tw_login c env).1 = Except.error (PyError.retryErr "RetryError") := by
  have ho := tw_login_once_err c env h
  unfold tw_login
  cases hx : (tw_login_once c env).1 with
  | ok b => rw [hx] at ho; simp [exceptOk] at ho
  | error e => rfl

theorem tw_post_tweet_result (c : TwCreds) (env : TwEnv) (ti url : String) :
    (tw_post_tweet c env ti url).1 =
      (if env.setupOk = true then
        (if (tw_login_body_ok c env && env.postButtonOk && env.tweetAreaOk &&
            env.tweetButtonOk) = true then Except.ok true
         else if env.pageReadOk = true then Except.ok false
         else Except.error (PyError.webDriver "invalid session: failed to read current url"))
       else Except.ok false) := by
  unfold tw_post_tweet
  cases hs : env.setupOk
  · simp [hs, tw_post_outer_result]
  · cases hl : tw_login_body_ok c env
    · rw [tw_login_result_err c env hl]
      simp [hs, hl, tw_post_outer_result]
    · rw [tw_login_result_ok c env hl]
      cases h1 : env.postButtonOk <;> cases h2 : env.tweetAreaOk <;>
        cases h3 : env.tweetButtonOk <;>
        simp [hs, hl, h1, h2, h3, tw_step_fail_result]

theorem navs_typeSlowlyChars (f : String) (l : List Char) :
    navs (typeSlowlyChars f l) = [] := by
  induction l with
  | nil => rfl
  | cons ch r ih => simp [typeSlowlyChars, navs, List.filterMap_cons] at ih ⊢; exact ih

theorem clicks_typeSlowlyChars (f : String) (l : List Char) :
    clicks (typeSlowlyChars f l) = [] := by
  induction l with
  | nil => rfl
  | cons ch r ih => simp [typeSlowlyChars, clicks, List.filterMap_cons] at ih ⊢; exact ih

theorem backoffs_typeSlowlyChars (f : String) (l : List Char) :
    backoffs (typeSlowlyChars f l) = [] := by
  induction l with
  | nil => rfl
  | cons ch r ih => simp [typeSlowlyChars, backoffs, List.filterMap_cons] at ih ⊢; exact ih

theorem notifySubjects_typeSlowlyChars (f : String) (l : List Char) :
    notifySubjects (typeSlowlyChars f l) = [] := by
  induction l with
  | nil => rfl
  | cons ch r ih => simp [typeSlowlyChars, notifySubjects, List.filterMap_cons] at ih ⊢; exact ih

theorem reportKinds_typeSlowlyChars (f : String) (l : List Char) :
    reportKinds (typeSlowlyChars f l) = [] := by
  induction l with
  | nil => rfl
  | cons ch r ih => simp [typeSlowlyChars, reportKinds, List.filterMap_cons] at ih ⊢; exact ih

theorem logExcerpts_typeSlowlyChars (f : String) (l : List Char) :
    logExcerpts (typeSlowlyChars f l) = [] := by
  induction l with
  | nil => rfl
  | cons ch r ih => simp [typeSlowlyChars, logExcerpts, List.filterMap_cons] at ih ⊢; exact ih

theorem notifyBodies_typeSlowlyChars (f : String) (l : List Char) :
    notifyBodies (typeSlowlyChars f l) = [] := by
  induction l with
  | nil => rfl
  | cons ch r ih => simp [typeSlowlyChars, notifyBodies, List.filterMap_cons] at ih ⊢; exact ih

theorem pj_typeSlowlyChars (f : String) (l : List Char) :
    pj (typeSlowlyChars f l) = [] := by
  induction l with
  | nil => rfl
  | cons ch r ih => simp [typeSlowlyChars, pj, evKeep, List.filter_cons] at ih ⊢; exact ih

theorem typedChars_typeSlowlyChars (g f : String) (l : List Char) :
    typedChars g (typeSlowlyChars f l) = (if f = g then l else []) := by
  induction l with
  | nil => simp [typeSlowlyChars, typedChars]
  | cons ch r ih =>
    by_cases hfg : f = g <;>
      simp [typeSlowlyChars, typedChars, List.filterMap_cons, hfg] at ih ⊢ <;>
      exact ih

theorem note_send_ok (c : NoteCreds) (env : NoteEnv) (et : String) (info : ErrorInfo)
    (shots : List String) (lp : Option String) :
    (note_send_error_notification c env et info shots lp).1 = Except.ok () := by
  unfold note_send_error_notification
  cases h : env.smtpOk <;> simp [smtp_send_raw, h]

theorem tw_send_ok (c : TwCreds) (env : TwEnv) (subject body : String)
    (shots : List String) (lp : Option String) :
    (tw_send_notification_email c env subject body shots lp).1 = Except.ok () := by
  unfold tw_send_notification_email
  cases hc : tw_smtp_configured c <;> cases h : env.smtpOk <;> simp [smtp_send_raw, h, hc]

theorem note_send_smtp_fail (c : NoteCreds) (env : NoteEnv) (et : String) (info : ErrorInfo)
    (shots : List String) (lp : Option String) (h : env.smtpOk = false) :
    notifySubjects (note_send_error_notification c env et info shots lp).2 = [] ∧
    Ev.log "Gmail auth or send error logged locally" ∈
      (note_send_error_notification c env et info shots lp).2 := by
  unfold note_send_error_notification
  simp [smtp_send_raw, h, notifySubjects, List.filterMap_append, List.filterMap_cons]

theorem tw_send_smtp_fail (c : TwCreds) (env : TwEnv) (subject body : String)
    (shots : List String) (lp : Option String) (h : env.smtpOk = false)
    (hc : tw_smtp_configured c = true) :
    notifySubjects (tw_send_notification_email c env subject body shots lp).2 = [] ∧
    Ev.log "mail send error logged locally" ∈
      (tw_send_notification_email c env subject body shots lp).2 := by
  unfold tw_send_notification_email
  simp [smtp_send_raw, h, hc, notifySubjects, List.filterMap_append, List.filterMap_cons]

theorem note_send_report_mem (c : NoteCreds) (env : NoteEnv) (et : String) (info : ErrorInfo)
    (shots : List String) (lp : Option String) :
    ("Note Post Error: " ++ et) ∈
      reportKinds (note_send_error_notification c env et info shots lp).2 := by
  unfold note_send_error_notification
  cases h : env.smtpOk <;> simp [smtp_send_raw, h, reportKinds]

theorem reportKinds_append (a b : List Ev) :
    reportKinds (a ++ b) = reportKinds a ++ reportKinds b := by
  simp [reportKinds, List.filterMap_append]

theorem reportKinds_log_cons (m : String) (l : List Ev) :
    reportKinds (Ev.log m :: l) = reportKinds l := by
  simp [reportKinds, List.filterMap_cons]

theorem note_send_failed_report_mem (c : NoteCreds) (env : NoteEnv) (info : ErrorInfo)
    (shots : List String) (lp : Option String) :
    "Note Post Error: post_article_failed" ∈
      reportKinds (note_send_error_notification c env "post_article_failed" info shots lp).2 :=
  note_send_report_mem c env "post_article_failed" info shots lp

theorem note_post_failure_report_mem (c : NoteCreds) (env : NoteEnv) (d : Bool) (t : List Ev)
    (hp : env.pageReadOk = true) :
    "Note Post Error: post_article_failed" ∈
      reportKinds (note_post_failure c env d t).2.2 := by
  unfold note_post_failure note_collect_error_info
  cases d <;>
    simp [hp, reportKinds_append, reportKinds_log_cons, List.mem_append,
      note_send_failed_report_mem]

@[simp] theorem navs_nil : navs [] = [] := rfl

@[simp] theorem navs_append (a b : List Ev) : navs (a ++ b) = navs a ++ navs b := by
  simp [navs, List.filterMap_append]

@[simp] theorem navs_cons (e : Ev) (l : List Ev) :
    navs (e :: l) =
      (match e with
        | Ev.navigate u => [u]
        | _ => []) ++ navs l := by
  cases e <;> simp [navs, List.filterMap_cons]

@[simp] theorem clicks_nil : clicks [] = [] := rfl

@[simp] theorem clicks_append (a b : List Ev) : clicks (a ++ b) = clicks a ++ clicks b := by
  simp [clicks, List.filterMap_append]

@[simp] theorem clicks_cons (e : Ev) (l : List Ev) :
    clicks (e :: l) =
      (match e with
        | Ev.click t => [t]
        | _ => []) ++ clicks l := by
  cases e <;> simp [clicks, List.filterMap_cons]

@[simp] theorem backoffs_nil : backoffs [] = [] := rfl

@[simp] theorem backoffs_append (a b : List Ev) :
    backoffs (a ++ b) = backoffs a ++ backoffs b := by
  simp [backoffs, List.filterMap_append]

@[simp] theorem backoffs_cons (e : Ev) (l : List Ev) :
    backoffs (e :: l) =
      (match e with
        | Ev.backoffSleep n => [n]
        | _ => []) ++ backoffs l := by
  cases e <;> simp [backoffs, List.filterMap_cons]

@[simp] theorem notifySubjects_nil : notifySubjects [] = [] := rfl

@[simp] theorem notifySubjects_append (a b : List Ev) :
    notifySubjects (a ++ b) = notifySubjects a ++ notifySubjects b := by
  simp [notifySubjects, List.filterMap_append]

@[simp] theorem notifySubjects_cons (e : Ev) (l : List Ev) :
    notifySubjects (e :: l) =
      (match e with
        | Ev.notify n => [n.subject]
        | _ => []) ++ notifySubjects l := by
  cases e <;> simp [notifySubjects, List.filterMap_cons]

@[simp] theorem reportKinds_nil : reportKinds [] = [] := rfl

@[simp] theorem reportKinds_cons_any (e : Ev) (l : List Ev) :
    reportKinds (e :: l) =
      (match e with
        | Ev.reportFired k => [k]
        | _ => []) ++ reportKinds l := by
  cases e <;> simp [reportKinds, List.filterMap_cons]

@[simp] theorem logExcerpts_nil : logExcerpts [] = [] := rfl

@[simp] theorem logExcerpts_append (a b : List Ev) :
    logExcerpts (a ++ b) = logExcerpts a ++ logExcerpts b := by
  simp [logExcerpts, List.filterMap_append]

@[simp] theorem logExcerpts_cons (e : Ev) (l : List Ev) :
    logExcerpts (e :: l) =
      (match e with
        | Ev.notify n => n.logExcerpt.toList
        | _ => []) ++ logExcerpts l := by
  cases e <;> simp [logExcerpts, List.filterMap_cons]
  case notify n => cases n.logExcerpt <;> simp

@[simp] theorem notifyBodies_nil : notifyBodies [] = [] := rfl

@[simp] theorem notifyBodies_append (a b : List Ev) :
    notifyBodies (a ++ b) = notifyBodies a ++ notifyBodies b := by
  simp [notifyBodies, List.filterMap_append]

@[simp] theorem notifyBodies_cons (e : Ev) (l : List Ev) :
    notifyBodies (e :: l) =
      (match e with
        | Ev.notify n => [n.body]
        | _ => []) ++ notifyBodies l := by
  cases e <;> simp [notifyBodies, List.filterMap_cons]

@[simp] theorem typedChars_nil (fld : String) : typedChars fld [] = [] := rfl

@[simp] theorem typedChars_append (fld : String) (a b : List Ev) :
    typedChars fld (a ++ b) = typedChars fld a ++ typedChars fld b := by
  simp [typedChars, List.filterMap_append]

@[simp] theorem typedChars_cons (fld : String) (e : Ev) (l : List Ev) :
    typedChars fld (e :: l) =
      (match e with
        | Ev.typeChar f ch => if f = fld then [ch] else []
        | _ => []) ++ typedChars fld l := by
  cases e <;> simp [typedChars, List.filterMap_cons]
  case typeChar f ch => split <;> simp_all

@[simp] theorem pj_nil : pj [] = [] := rfl

@[simp] theorem pj_append (a b : List Ev) : pj (a ++ b) = pj a ++ pj b := by
  simp [pj, List.filter_append]

@[simp] theorem pj_cons (e : Ev) (l : List Ev) :
    pj (e :: l) = (if evKeep e = true then [e] else []) ++ pj l := by
  simp [pj, List.filter_cons]
  split <;> simp

theorem notifySubjects_save_core (p : String) (d sv f : Bool) (n : Nat) :
    notifySubjects (save_screenshot_core p d sv f n).2 = [] := by
  unfold save_screenshot_core
  repeat' split
  all_goals rfl

theorem notifySubjects_note_save (env : NoteEnv) (d : Bool) (et : String) :
    notifySubjects (note_save_screenshot env d et).2 = [] := by
  unfold note_save_screenshot
  exact notifySubjects_save_core _ _ _ _ _

theorem notifySubjects_tw_save (env : TwEnv) (d : Bool) (et : String) :
    notifySubjects (tw_save_screenshot env d et).2 = [] := by
  unfold tw_save_screenshot
  exact notifySubjects_save_core _ _ _ _ _

theorem notifySubjects_check_core (m : Nat) (sev : List Ev) (h : notifySubjects sev = []) :
    notifySubjects (check_memory_core m sev) = [] := by
  unfold check_memory_core
  split <;> simp [h]

theorem notifySubjects_note_check_memory (env : NoteEnv) (d : Bool) :
    notifySubjects (note_check_memory env d) = [] := by
  unfold note_check_memory
  exact notifySubjects_check_core _ _ (notifySubjects_note_save env d "high_memory")

theorem notifySubjects_tw_check_memory (env : TwEnv) (d : Bool) :
    notifySubjects (tw_check_memory env d) = [] := by
  unfold tw_check_memory
  exact notifySubjects_check_core _ _ (notifySubjects_tw_save env d "high_memory")

theorem notifySubjects_session_cleanup (q d : Bool) :
    notifySubjects (session_cleanup q d).2.2 = [] := by
  cases q <;> cases d <;> rfl

theorem notifySubjects_note_login (c : NoteCreds) (env : NoteEnv) :
    notifySubjects (note_login c env).2 = [] := by
  unfold note_login note_login_fail withPre typeSlowly
  repeat' split
  all_goals
    first
      | rfl
      | simp [notifySubjects_typeSlowlyChars, notifySubjects_note_check_memory,
          notifySubjects_note_save]

theorem notifySubjects_note_send (c : NoteCreds) (env : NoteEnv) (et : String)
    (info : ErrorInfo) (shots : List String) (lp : Option String) :
    notifySubjects (note_send_error_notification c env et info shots lp).2 =
      (if env.smtpOk = true then ["Note Post Error: " ++ et] else []) := by
  unfold note_send_error_notification
  cases h : env.smtpOk <;> simp [smtp_send_raw, h]

theorem notifySubjects_tw_send (c : TwCreds) (env : TwEnv) (subject body : String)
    (shots : List String) (lp : Option String) :
    notifySubjects (tw_send_notification_email c env subject body shots lp).2 =
      (if (tw_smtp_configured c && env.smtpOk) = true then [subject] else []) := by
  unfold tw_send_notification_email
  cases hc : tw_smtp_configured c <;> cases h : env.smtpOk <;> simp [smtp_send_raw, h, hc]

theorem tw_login_trace_ok (c : TwCreds) (env : TwEnv) (h : tw_login_body_ok c env = true) :
    (tw_login c env).2 = (tw_login_body c env).2 := by
  unfold tw_login
  rw [tw_login_once_ok c env h]
  show (tw_login_once c env).2 = _
  unfold tw_login_once
  rw [tw_login_body_ok_true c env h]

theorem tw_login_trace_fail (c : TwCreds) (env : TwEnv)
    (h : tw_login_body_ok c env = false) :
    (tw_login c env).2 =
      (tw_login_once c env).2 ++ [Ev.backoffSleep 4000] ++ (tw_login_once c env).2 ++
        [Ev.backoffSleep 4000] ++ (tw_login_once c env).2 := by
  have ho := tw_login_once_err c env h
  unfold tw_login
  cases hx : (tw_login_once c env).1 with
  | ok b => rw [hx] at ho; simp [exceptOk] at ho
  | error e => simp [wait_exponential_s]

theorem navs_save_core (p : String) (d sv f : Bool) (n : Nat) :
    navs (save_screenshot_core p d sv f n).2 = [] := by
  unfold save_screenshot_core
  repeat' split
  all_goals rfl

theorem navs_note_save (env : NoteEnv) (d : Bool) (et : String) :
    navs (note_save_screenshot env d et).2 = [] := by
  unfold note_save_screenshot
  exact navs_save_core _ _ _ _ _

theorem navs_tw_save (env : TwEnv) (d : Bool) (et : String) :
    navs (tw_save_screenshot env d et).2 = [] := by
  unfold tw_save_screenshot
  exact navs_save_core _ _ _ _ _

theorem navs_check_core (m : Nat) (sev : List Ev) (h : navs sev = []) :
    navs (check_memory_core m sev) = [] := by
  unfold check_memory_core
  split <;> simp [h]

theorem navs_note_check_memory (env : NoteEnv) (d : Bool) :
    navs (note_check_memory env d) = [] := by
  unfold note_check_memory
  exact navs_check_core _ _ (navs_note_save env d "high_memory")

theorem navs_tw_check_memory (env : TwEnv) (d : Bool) :
    navs (tw_check_memory env d) = [] := by
  unfold tw_check_memory
  exact navs_check_core _ _ (navs_tw_save env d "high_memory")

theorem navs_session_cleanup (q d : Bool) :
    navs (session_cleanup q d).2.2 = [] := by
  cases q <;> cases d <;> rfl

theorem navs_note_send (c : NoteCreds) (env : NoteEnv) (et : String) (info : ErrorInfo)
    (shots : List String) (lp : Option String) :
    navs (note_send_error_notification c env et info shots lp).2 = [] := by
  unfold note_send_error_notification
  cases h : env.smtpOk <;> simp [smtp_send_raw, h]

theorem navs_tw_send (c : TwCreds) (env : TwEnv) (subject body : String)
    (shots : List String) (lp : Option String) :
    navs (tw_send_notification_email c env subject body shots lp).2 = [] := by
  unfold tw_send_notification_email
  cases hc : tw_smtp_configured c <;> cases h : env.smtpOk <;> simp [smtp_send_raw, h, hc]

theorem navs_tw_send_error (c : TwCreds) (env : TwEnv) (et : String) (info : ErrorInfo)
    (shots : List String) (lp : Option String) :
    navs (tw_send_error_notification c env et info shots lp).2 = [] := by
  unfold tw_send_error_notification
  exact navs_tw_send _ _ _ _ _ _

theorem navs_tw_code (c : TwCreds) (env : TwEnv) :
    navs (tw_get_confirmation_code c env).2 = [] := by
  unfold tw_get_confirmation_code
  repeat' split
  all_goals rfl

theorem navs_tw_error_branch (c : TwCreds) (env : TwEnv) (et sn : String)
    (ps : List String) (r : PyError) (m : String) :
    navs (tw_error_branch c env et sn ps r m).2 = [] := by
  unfold tw_error_branch
  cases h : tw_read_url env true <;> simp [h, navs_tw_save, navs_tw_send_error]

theorem navs_note_collect (c : NoteCreds) (env : NoteEnv) (d : Bool) :
    navs (note_collect_error_info c env d).2 = [] := by
  unfold note_collect_error_info
  repeat' split
  all_goals simp [navs_note_save, navs_note_send]

theorem navs_note_post_failure (c : NoteCreds) (env : NoteEnv) (d : Bool) (t : List Ev) :
    navs (note_post_failure c env d t).2.2 = navs t := by
  unfold note_post_failure
  cases hx : (note_collect_error_info c env d).1 <;>
    simp [navs_note_collect, navs_note_send, navs_session_cleanup]

theorem navs_tw_post_outer (c : TwCreds) (env : TwEnv) (d : Bool) (e : PyError)
    (t : List Ev) : navs (tw_post_outer c env d e t).2.2 = navs t := by
  unfold tw_post_outer
  cases h : tw_read_url env d <;>
    simp [h, navs_tw_save, navs_tw_send_error, navs_tw_check_memory, navs_session_cleanup]

theorem navs_tw_step_fail (c : TwCreds) (env : TwEnv) (et sn m : String) (t : List Ev) :
    navs (tw_step_fail c env et sn m t).2.2 = navs t := by
  unfold tw_step_fail
  cases h : tw_read_url env true <;>
    simp [h, navs_tw_save, navs_tw_send_error, navs_tw_post_outer]

theorem clicks_save_core (p : String) (d sv f : Bool) (n : Nat) :
    clicks (save_screenshot_core p d sv f n).2 = [] := by
  unfold save_screenshot_core
  repeat' split
  all_goals rfl

theorem clicks_note_save (env : NoteEnv) (d : Bool) (et : String) :
    clicks (note_save_screenshot env d et).2 = [] := by
  unfold note_save_screenshot
  exact clicks_save_core _ _ _ _ _

theorem clicks_tw_save (env : TwEnv) (d : Bool) (et : String) :
    clicks (tw_save_screenshot env d et).2 = [] := by
  unfold tw_save_screenshot
  exact clicks_save_core _ _ _ _ _

theorem clicks_check_core (m : Nat) (sev : List Ev) (h : clicks sev = []) :
    clicks (check_memory_core m sev) = [] := by
  unfold check_memory_core
  split <;> simp [h]

theorem clicks_note_check_memory (env : NoteEnv) (d : Bool) :
    clicks (note_check_memory env d) = [] := by
  unfold note_check_memory
  exact clicks_check_core _ _ (clicks_note_save env d "high_memory")

theorem clicks_tw_check_memory (env : TwEnv) (d : Bool) :
    clicks (tw_check_memory env d) = [] := by
  unfold tw_check_memory
  exact clicks_check_core _ _ (clicks_tw_save env d "high_memory")

theorem clicks_session_cleanup (q d : Bool) :
    clicks (session_cleanup q d).2.2 = [] := by
  cases q <;> cases d <;> rfl

theorem clicks_note_send (c : NoteCreds) (env : NoteEnv) (et : String) (info : ErrorInfo)
    (shots : List String) (lp : Option String) :
    clicks (note_send_error_notification c env et info shots lp).2 = [] := by
  unfold note_send_error_notification
  cases h : env.smtpOk <;> simp [smtp_send_raw, h]

theorem clicks_tw_send (c : TwCreds) (env : TwEnv) (subject body : String)
    (shots : List String) (lp : Option String) :
    clicks (tw_send_notification_email c env subject body shots lp).2 = [] := by
  unfold tw_send_notification_email
  cases hc : tw_smtp_configured c <;> cases h : env.smtpOk <;> simp [smtp_send_raw, h, hc]

theorem clicks_tw_send_error (c : TwCreds) (env : TwEnv) (et : String) (info : ErrorInfo)
    (shots : List String) (lp : Option String) :
    clicks (tw_send_error_notification c env et info shots lp).2 = [] := by
  unfold tw_send_error_notification
  exact clicks_tw_send _ _ _ _ _ _

theorem clicks_tw_code (c : TwCreds) (env : TwEnv) :
    clicks (tw_get_confirmation_code c env).2 = [] := by
  unfold tw_get_confirmation_code
  repeat' split
  all_goals rfl

theorem clicks_tw_error_branch (c : TwCreds) (env : TwEnv) (et sn : String)
    (ps : List String) (r : PyError) (m : String) :
    clicks (tw_error_branch c env et sn ps r m).2 = [] := by
  unfold tw_error_branch
  cases h : tw_read_url env true <;> simp [h, clicks_tw_save, clicks_tw_send_error]

theorem clicks_note_collect (c : NoteCreds) (env : NoteEnv) (d : Bool) :
    clicks (note_collect_error_info c env d).2 = [] := by
  unfold note_collect_error_info
  repeat' split
  all_goals simp [clicks_note_save, clicks_note_send]

theorem clicks_note_post_failure (c : NoteCreds) (env : NoteEnv) (d : Bool) (t : List Ev) :
    clicks (note_post_failure c env d t).2.2 = clicks t := by
  unfold note_post_failure
  cases hx : (note_collect_error_info c env d).1 <;>
    simp [clicks_note_collect, clicks_note_send, clicks_session_cleanup]

theorem clicks_tw_post_outer (c : TwCreds) (env : TwEnv) (d : Bool) (e : PyError)
    (t : List Ev) : clicks (tw_post_outer c env d e t).2.2 = clicks t := by
  unfold tw_post_outer
  cases h : tw_read_url env d <;>
    simp [h, clicks_tw_save, clicks_tw_send_error, clicks_tw_check_memory, clicks_session_cleanup]

theorem clicks_tw_step_fail (c : TwCreds) (env : TwEnv) (et sn m : String) (t : List Ev) :
    clicks (tw_step_fail c env et sn m t).2.2 = clicks t := by
  unfold tw_step_fail
  cases h : tw_read_url env true <;>
    simp [h, clicks_tw_save, clicks_tw_send_error, clicks_tw_post_outer]

theorem backoffs_save_core (p : String) (d sv f : Bool) (n : Nat) :
    backoffs (save_screenshot_core p d sv f n).2 = [] := by
  unfold save_screenshot_core
  repeat' split
  all_goals rfl

theorem backoffs_note_save (env : NoteEnv) (d : Bool) (et : String) :
    backoffs (note_save_screenshot env d et).2 = [] := by
  unfold note_save_screenshot
  exact backoffs_save_core _ _ _ _ _

theorem backoffs_tw_save (env : TwEnv) (d : Bool) (et : String) :
    backoffs (tw_save_screenshot env d et).2 = [] := by
  unfold tw_save_screenshot
  exact backoffs_save_core _ _ _ _ _

theorem backoffs_check_core (m : Nat) (sev : List Ev) (h : backoffs sev = []) :
    backoffs (check_memory_core m sev) = [] := by
  unfold check_memory_core
  split <;> simp [h]

theorem backoffs_note_check_memory (env : NoteEnv) (d : Bool) :
    backoffs (note_check_memory env d) = [] := by
  unfold note_check_memory
  exact backoffs_check_core _ _ (backoffs_note_save env d "high_memory")

theorem backoffs_tw_check_memory (env : TwEnv) (d : Bool) :
    backoffs (tw_check_memory env d) = [] := by
  unfold tw_check_memory
  exact backoffs_check_core _ _ (backoffs_tw_save env d "high_memory")

theorem backoffs_session_cleanup (q d : Bool) :
    backoffs (session_cleanup q d).2.2 = [] := by
  cases q <;> cases d <;> rfl

theorem backoffs_note_send (c : NoteCreds) (env : NoteEnv) (et : String) (info : ErrorInfo)
    (shots : List String) (lp : Option String) :
    backoffs (note_send_error_notification c env et info shots lp).2 = [] := by
  unfold note_send_error_notification
  cases h : env.smtpOk <;> simp [smtp_send_raw, h]

theorem backoffs_tw_send (c : TwCreds) (env : TwEnv) (subject body : String)
    (shots : List String) (lp : Option String) :
    backoffs (tw_send_notification_email c env subject body shots lp).2 = [] := by
  unfold tw_send_notification_email
  cases hc : tw_smtp_configured c <;> cases h : env.smtpOk <;> simp [smtp_send_raw, h, hc]

theorem backoffs_tw_send_error (c : TwCreds) (env : TwEnv) (et : String) (info : ErrorInfo)
    (shots : List String) (lp : Option String) :
    backoffs (tw_send_error_notification c env et info shots lp).2 = [] := by
  unfold tw_send_error_notification
  exact backoffs_tw_send _ _ _ _ _ _

theorem backoffs_tw_code (c : TwCreds) (env : TwEnv) :
    backoffs (tw_get_confirmation_code c env).2 = [] := by
  unfold tw_get_confirmation_code
  repeat' split
  all_goals rfl

theorem backoffs_tw_error_branch (c : TwCreds) (env : TwEnv) (et sn : String)
    (ps : List String) (r : PyError) (m : String) :
    backoffs (tw_error_branch c env et sn ps r m).2 = [] := by
  unfold tw_error_branch
  cases h : tw_read_url env true <;> simp [h, backoffs_tw_save, backoffs_tw_send_error]

theorem backoffs_note_collect (c : NoteCreds) (env : NoteEnv) (d : Bool) :
    backoffs (note_collect_error_info c env d).2 = [] := by
  unfold note_collect_error_info
  repeat' split
  all_goals simp [backoffs_note_save, backoffs_note_send]

theorem backoffs_note_post_failure (c : NoteCreds) (env : NoteEnv) (d : Bool) (t : List Ev) :
    backoffs (note_post_failure c env d t).2.2 = backoffs t := by
  unfold note_post_failure
  cases hx : (note_collect_error_info c env d).1 <;>
    simp [backoffs_note_collect, backoffs_note_send, backoffs_session_cleanup]

theorem backoffs_tw_post_outer (c : TwCreds) (env : TwEnv) (d : Bool) (e : PyError)
    (t : List Ev) : backoffs (tw_post_outer c env d e t).2.2 = backoffs t := by
  unfold tw_post_outer
  cases h : tw_read_url env d <;>
    simp [h, backoffs_tw_save, backoffs_tw_send_error, backoffs_tw_check_memory, backoffs_session_cleanup]

theorem backoffs_tw_step_fail (c : TwCreds) (env : TwEnv) (et sn m : String) (t : List Ev) :
    backoffs (tw_step_fail c env et sn m t).2.2 = backoffs t := by
  unfold tw_step_fail
  cases h : tw_read_url env true <;>
    simp [h, backoffs_tw_save, backoffs_tw_send_error, backoffs_tw_post_outer]

theorem navs_note_login (c : NoteCreds) (env : NoteEnv) :
    navs (note_login c env).2 = [note_login_url] := by
  unfold note_login note_login_fail withPre typeSlowly
  repeat' split
  all_goals simp [navs_typeSlowlyChars, navs_note_check_memory, navs_note_save]

theorem backoffs_note_login (c : NoteCreds) (env : NoteEnv) :
    backoffs (note_login c env).2 = [] := by
  unfold note_login note_login_fail withPre typeSlowly
  repeat' split
  all_goals simp [backoffs_typeSlowlyChars, backoffs_note_check_memory, backoffs_note_save]

theorem clicks_note_login_no_post (c : NoteCreds) (env : NoteEnv) :
    "post_button" ∉ clicks (note_login c env).2 := by
  unfold note_login note_login_fail withPre typeSlowly
  repeat' split
  all_goals simp [clicks_typeSlowlyChars, clicks_note_check_memory, clicks_note_save]

set_option maxHeartbeats 4000000 in
theorem navs_tw_login_body (c : TwCreds) (env : TwEnv) :
    navs (tw_login_body c env).2 = [tw_login_url] := by
  unfold tw_login_body withPre typeSlowly
  repeat' split
  all_goals
    simp_all [navs_typeSlowlyChars, navs_tw_check_memory, navs_tw_save, navs_tw_send,
      navs_tw_error_branch, navs_tw_code, apply_ite navs]

set_option maxHeartbeats 4000000 in
theorem backoffs_tw_login_body (c : TwCreds) (env : TwEnv) :
    backoffs (tw_login_body c env).2 = [] := by
  unfold tw_login_body withPre typeSlowly
  repeat' split
  all_goals
    simp_all [backoffs_typeSlowlyChars, backoffs_tw_check_memory, backoffs_tw_save,
      backoffs_tw_send, backoffs_tw_error_branch, backoffs_tw_code, apply_ite backoffs]

set_option maxHeartbeats 4000000 in
theorem clicks_tw_login_body_no_tweet (c : TwCreds) (env : TwEnv) :
    "tweet_button" ∉ clicks (tw_login_body c env).2 := by
  unfold tw_login_body withPre typeSlowly
  repeat' split
  all_goals
    (simp_all [clicks_typeSlowlyChars, clicks_tw_check_memory, clicks_tw_save,
      clicks_tw_send, clicks_tw_error_branch, clicks_tw_code, apply_ite clicks]
     try (split <;> simp_all))

theorem navs_tw_login_once (c : TwCreds) (env : TwEnv) :
    navs (tw_login_once c env).2 = [tw_login_url] := by
  unfold tw_login_once
  cases hx : (tw_login_body c env).1
  all_goals
    dsimp only
  case ok b => exact navs_tw_login_body c env
  case error e =>
    cases hr : tw_read_url env true <;>
      simp [hr, navs_tw_login_body, navs_tw_check_memory, navs_tw_save, navs_tw_send_error]

theorem backoffs_tw_login_once (c : TwCreds) (env : TwEnv) :
    backoffs (tw_login_once c env).2 = [] := by
  unfold tw_login_once
  cases hx : (tw_login_body c env).1
  all_goals
    dsimp only
  case ok b => exact backoffs_tw_login_body c env
  case error e =>
    cases hr : tw_read_url env true <;>
      simp [hr, backoffs_tw_login_body, backoffs_tw_check_memory, backoffs_tw_save,
        backoffs_tw_send_error]

theorem clicks_tw_login_once_no_tweet (c : TwCreds) (env : TwEnv) :
    "tweet_button" ∉ clicks (tw_login_once c env).2 := by
  have hb := clicks_tw_login_body_no_tweet c env
  unfold tw_login_once
  cases hx : (tw_login_body c env).1
  all_goals
    dsimp only
  case ok b => exact hb
  case error e =>
    cases hr : tw_read_url env true <;>
      simp [hr, clicks_tw_check_memory, clicks_tw_save, clicks_tw_send_error] <;>
      exact hb

theorem clicks_tw_login_no_tweet (c : TwCreds) (env : TwEnv) :
    "tweet_button" ∉ clicks (tw_login c env).2 := by
  have hb := clicks_tw_login_once_no_tweet c env
  unfold tw_login
  cases hx : (tw_login_once c env).1
  all_goals
    dsimp only
  case ok b => exact hb
  case error e => simp [hb]

theorem tw_send_error_report_mem (c : TwCreds) (env : TwEnv) (et : String) (info : ErrorInfo)
    (shots : List String) (lp : Option String) (hc : tw_smtp_configured c = true) :
    ("Twitter Bot Error: " ++ et) ∈
      reportKinds (tw_send_error_notification c env et info shots lp).2 := by
  unfold tw_send_error_notification tw_send_notification_email
  cases h : env.smtpOk <;> simp [smtp_send_raw, h, hc, reportKinds]

theorem tw_send_loginfailed_report_mem (c : TwCreds) (env : TwEnv) (info : ErrorInfo)
    (shots : List String) (lp : Option String) (hc : tw_smtp_configured c = true) :
    "Twitter Bot Error: Login Failed" ∈
      reportKinds (tw_send_error_notification c env "Login Failed" info shots lp).2 :=
  tw_send_error_report_mem c env "Login Failed" info shots lp hc

theorem tw_login_once_report_mem (c : TwCreds) (env : TwEnv)
    (h1 : tw_login_body_ok c env = false) (hp : env.pageReadOk = true)
    (hc : tw_smtp_configured c = true) :
    "Twitter Bot Error: Login Failed" ∈ reportKinds (tw_login_once c env).2 := by
  unfold tw_login_once
  cases hx : (tw_login_body c env).1
  case ok b =>
    have hb := tw_login_body_ok_false c env h1
    rw [hx] at hb
    simp [exceptOk] at hb
  case error e =>
    dsimp only
    simp [tw_read_url, hp, reportKinds_append, List.mem_append,
      tw_send_loginfailed_report_mem _ _ _ _ _ hc]

theorem typedChars_save_core (fld p : String) (d sv f : Bool) (n : Nat) :
    typedChars fld (save_screenshot_core p d sv f n).2 = [] := by
  unfold save_screenshot_core
  repeat' split
  all_goals rfl

theorem typedChars_tw_save (fld : String) (env : TwEnv) (d : Bool) (et : String) :
    typedChars fld (tw_save_screenshot env d et).2 = [] := by
  unfold tw_save_screenshot
  exact typedChars_save_core _ _ _ _ _ _

theorem typedChars_check_core (fld : String) (m : Nat) (sev : List Ev)
    (h : typedChars fld sev = []) : typedChars fld (check_memory_core m sev) = [] := by
  unfold check_memory_core
  split <;> simp [h]

theorem typedChars_tw_check_memory (fld : String) (env : TwEnv) (d : Bool) :
    typedChars fld (tw_check_memory env d) = [] := by
  unfold tw_check_memory
  exact typedChars_check_core _ _ _ (typedChars_tw_save fld env d "high_memory")

theorem typedChars_tw_send (fld : String) (c : TwCreds) (env : TwEnv)
    (subject body : String) (shots : List String) (lp : Option String) :
    typedChars fld (tw_send_notification_email c env subject body shots lp).2 = [] := by
  unfold tw_send_notification_email
  cases hc : tw_smtp_configured c <;> cases h : env.smtpOk <;> simp [smtp_send_raw, h, hc]

theorem typedChars_tw_send_error (fld : String) (c : TwCreds) (env : TwEnv) (et : String)
    (info : ErrorInfo) (shots : List String) (lp : Option String) :
    typedChars fld (tw_send_error_notification c env et info shots lp).2 = [] := by
  unfold tw_send_error_notification
  exact typedChars_tw_send _ _ _ _ _ _ _

theorem typedChars_tw_code (fld : String) (c : TwCreds) (env : TwEnv) :
    typedChars fld (tw_get_confirmation_code c env).2 = [] := by
  unfold tw_get_confirmation_code
  repeat' split
  all_goals rfl

theorem typedChars_tw_error_branch (fld : String) (c : TwCreds) (env : TwEnv)
    (et sn : String) (ps : List String) (r : PyError) (m : String) :
    typedChars fld (tw_error_branch c env et sn ps r m).2 = [] := by
  unfold tw_error_branch
  cases h : tw_read_url env true <;>
    simp [h, typedChars_tw_save, typedChars_tw_send_error]

set_option maxHeartbeats 4000000 in
theorem typedChars_password_tw_login_body (c : TwCreds) (env : TwEnv) :
    typedChars "password" (tw_login_body c env).2 = [] := by
  unfold tw_login_body withPre typeSlowly
  repeat' split
  all_goals
    simp_all [typedChars_typeSlowlyChars, typedChars_tw_check_memory, typedChars_tw_save,
      typedChars_tw_send, typedChars_tw_error_branch, typedChars_tw_code,
      apply_ite (typedChars "password")]

theorem pj_note_send_eq (c₁ c₂ : NoteCreds) (env : NoteEnv)
    (h1 : c₁.smtp_email = c₂.smtp_email) (h2 : c₁.notification_email = c₂.notification_email) :
    ∀ (et : String) (info : ErrorInfo) (shots : List String) (lp : Option String),
      pj (note_send_error_notification c₁ env et info shots lp).2 =
        pj (note_send_error_notification c₂ env et info shots lp).2 := by
  intro et info shots lp
  unfold note_send_error_notification
  cases hs : env.smtpOk <;> simp [smtp_send_raw, hs, h1, h2]

theorem note_collect_fst_eq (c₁ c₂ : NoteCreds) (env : NoteEnv) (d : Bool) :
    (note_collect_error_info c₁ env d).1 = (note_collect_error_info c₂ env d).1 := by
  unfold note_collect_error_info
  repeat' split
  all_goals rfl

theorem pj_note_collect_eq (c₁ c₂ : NoteCreds) (env : NoteEnv) (d : Bool)
    (h1 : c₁.smtp_email = c₂.smtp_email) (h2 : c₁.notification_email = c₂.notification_email) :
    pj (note_collect_error_info c₁ env d).2 = pj (note_collect_error_info c₂ env d).2 := by
  unfold note_collect_error_info
  repeat' split
  all_goals simp [pj_note_send_eq c₁ c₂ env h1 h2]

theorem pj_note_post_failure_eq (c₁ c₂ : NoteCreds) (env : NoteEnv) (d : Bool)
    (h1 : c₁.smtp_email = c₂.smtp_email) (h2 : c₁.notification_email = c₂.notification_email)
    (t₁ t₂ : List Ev) (hpt : pj t₁ = pj t₂) :
    pj (note_post_failure c₁ env d t₁).2.2 = pj (note_post_failure c₂ env d t₂).2.2 := by
  unfold note_post_failure
  rw [note_collect_fst_eq c₁ c₂ env d]
  cases hx : (note_collect_error_info c₂ env d).1 <;>
    simp [hpt, pj_note_collect_eq c₁ c₂ env d h1 h2, pj_note_send_eq c₁ c₂ env h1 h2]

theorem pj_note_login_eq (c₁ c₂ : NoteCreds) (env : NoteEnv) :
    pj (note_login c₁ env).2 = pj (note_login c₂ env).2 := by
  unfold note_login note_login_fail withPre typeSlowly
  repeat' split
  all_goals simp [pj_typeSlowlyChars]

theorem pj_tw_send_eq (tc₁ tc₂ : TwCreds) (env : TwEnv)
    (h3 : tc₁.smtp_email = tc₂.smtp_email) (h4 : tc₁.notification_email = tc₂.notification_email)
    (h5 : tw_smtp_configured tc₁ = tw_smtp_configured tc₂) :
    ∀ (subject body : String) (shots : List String) (lp : Option String),
      pj (tw_send_notification_email tc₁ env subject body shots lp).2 =
        pj (tw_send_notification_email tc₂ env subject body shots lp).2 := by
  intro subject body shots lp
  unfold tw_send_notification_email
  rw [h5]
  cases hc : tw_smtp_configured tc₂ <;> cases hs : env.smtpOk <;>
    simp [hc, hs, smtp_send_raw, h3, h4]

theorem pj_tw_send_error_eq (tc₁ tc₂ : TwCreds) (env : TwEnv)
    (h3 : tc₁.smtp_email = tc₂.smtp_email) (h4 : tc₁.notification_email = tc₂.notification_email)
    (h5 : tw_smtp_configured tc₁ = tw_smtp_configured tc₂) :
    ∀ (et : String) (info : ErrorInfo) (shots : List String) (lp : Option String),
      pj (tw_send_error_notification tc₁ env et info shots lp).2 =
        pj (tw_send_error_notification tc₂ env et info shots lp).2 := by
  intro et info shots lp
  unfold tw_send_error_notification
  exact pj_tw_send_eq tc₁ tc₂ env h3 h4 h5 _ _ shots lp

theorem tw_code_fst_eq (tc₁ tc₂ : TwCreds) (env : TwEnv)
    (h6 : tc₁.gmail_address = tc₂.gmail_address)
    (h7 : (tc₁.gmail_app_password == "") = (tc₂.gmail_app_password == "")) :
    (tw_get_confirmation_code tc₁ env).1 = (tw_get_confirmation_code tc₂ env).1 := by
  unfold tw_get_confirmation_code
  rw [h6, h7]

theorem pj_tw_code_eq (tc₁ tc₂ : TwCreds) (env : TwEnv)
    (h6 : tc₁.gmail_address = tc₂.gmail_address)
    (h7 : (tc₁.gmail_app_password == "") = (tc₂.gmail_app_password == "")) :
    pj (tw_get_confirmation_code tc₁ env).2 = pj (tw_get_confirmation_code tc₂ env).2 := by
  unfold tw_get_confirmation_code
  rw [h6, h7]

theorem tw_error_branch_fst_eq (tc₁ tc₂ : TwCreds) (env : TwEnv) :
    ∀ (et sn : String) (ps : List String) (r : PyError) (m : String),
      (tw_error_branch tc₁ env et sn ps r m).1 = (tw_error_branch tc₂ env et sn ps r m).1 := by
  intro et sn ps r m
  unfold tw_error_branch
  dsimp only
  repeat' split
  all_goals rfl

theorem pj_tw_error_branch_eq (tc₁ tc₂ : TwCreds) (env : TwEnv)
    (h3 : tc₁.smtp_email = tc₂.smtp_email) (h4 : tc₁.notification_email = tc₂.notification_email)
    (h5 : tw_smtp_configured tc₁ = tw_smtp_configured tc₂) :
    ∀ (et sn : String) (ps : List String) (r : PyError) (m : String),
      pj (tw_error_branch tc₁ env et sn ps r m).2 = pj (tw_error_branch tc₂ env et sn ps r m).2 := by
  intro et sn ps r m
  unfold tw_error_branch
  dsimp only
  repeat' split
  all_goals simp [pj_tw_send_error_eq tc₁ tc₂ env h3 h4 h5]

set_option maxHeartbeats 4000000 in
theorem tw_login_body_fst_eq (tc₁ tc₂ : TwCreds) (env : TwEnv)
    (h6 : tc₁.gmail_address = tc₂.gmail_address)
    (h7 : (tc₁.gmail_app_password == "") = (tc₂.gmail_app_password == "")) :
    (tw_login_body tc₁ env).1 = (tw_login_body tc₂ env).1 := by
  unfold tw_login_body withPre
  dsimp only
  rw [tw_code_fst_eq tc₁ tc₂ env h6 h7]
  cases hn : env.navLoginOk
  · simp [hn]
  · cases hu : env.usernameFieldFound
    · simp [hn, hu, tw_error_branch_fst_eq tc₁ tc₂ env]
    · cases hp : env.passwordFieldFound
      · simp [hn, hu, hp, tw_error_branch_fst_eq tc₁ tc₂ env]
      · cases hcp : env.confirmationPromptShown
        · cases hl : env.loginLandmark <;>
            simp [hn, hu, hp, hcp, hl, tw_error_branch_fst_eq tc₁ tc₂ env]
        · cases hcode : (tw_get_confirmation_code tc₂ env).1
          · simp [hn, hu, hp, hcp, hcode, tw_error_branch_fst_eq tc₁ tc₂ env]
          · cases hco : env.confirmationOk
            · cases hpr : env.pageReadOk
              · simp [hn, hu, hp, hcp, hcode, hco, hpr, tw_error_branch_fst_eq tc₁ tc₂ env]
              · cases hl : env.loginLandmark <;>
                  simp [hn, hu, hp, hcp, hcode, hco, hpr, hl,
                    tw_error_branch_fst_eq tc₁ tc₂ env]
            · simp [hn, hu, hp, hcp, hcode, hco]

set_option maxHeartbeats 8000000 in
theorem pj_tw_login_body_eq (tc₁ tc₂ : TwCreds) (env : TwEnv)
    (h3 : tc₁.smtp_email = tc₂.smtp_email) (h4 : tc₁.notification_email = tc₂.notification_email)
    (h5 : tw_smtp_configured tc₁ = tw_smtp_configured tc₂)
    (h6 : tc₁.gmail_address = tc₂.gmail_address)
    (h7 : (tc₁.gmail_app_password == "") = (tc₂.gmail_app_password == "")) :
    pj (tw_login_body tc₁ env).2 = pj (tw_login_body tc₂ env).2 := by
  unfold tw_login_body withPre typeSlowly
  dsimp only
  rw [tw_code_fst_eq tc₁ tc₂ env h6 h7]
  cases hn : env.navLoginOk
  · simp [hn]
  · cases hu : env.usernameFieldFound
    · simp [hn, hu, pj_tw_error_branch_eq tc₁ tc₂ env h3 h4 h5, apply_ite pj]
    · cases hp : env.passwordFieldFound
      · simp [hn, hu, hp, pj_typeSlowlyChars, evKeep,
          pj_tw_error_branch_eq tc₁ tc₂ env h3 h4 h5, apply_ite pj]
      · cases hcp : env.confirmationPromptShown
        · cases hl : env.loginLandmark <;>
            simp [hn, hu, hp, hcp, hl, pj_typeSlowlyChars, evKeep,
              pj_tw_send_eq tc₁ tc₂ env h3 h4 h5,
              pj_tw_error_branch_eq tc₁ tc₂ env h3 h4 h5, apply_ite pj]
        · cases hcode : (tw_get_confirmation_code tc₂ env).1
          · simp [hn, hu, hp, hcp, hcode, pj_typeSlowlyChars, evKeep,
              pj_tw_send_eq tc₁ tc₂ env h3 h4 h5,
              pj_tw_error_branch_eq tc₁ tc₂ env h3 h4 h5,
              pj_tw_code_eq tc₁ tc₂ env h6 h7, apply_ite pj]
          · cases hco : env.confirmationOk
            · cases hpr : env.pageReadOk
              · simp [hn, hu, hp, hcp, hcode, hco, hpr, pj_typeSlowlyChars, evKeep,
                  pj_tw_send_eq tc₁ tc₂ env h3 h4 h5,
                  pj_tw_error_branch_eq tc₁ tc₂ env h3 h4 h5,
                  pj_tw_code_eq tc₁ tc₂ env h6 h7, apply_ite pj]
              · cases hl : env.loginLandmark <;>
                  simp [hn, hu, hp, hcp, hcode, hco, hpr, hl, pj_typeSlowlyChars, evKeep,
                    pj_tw_send_eq tc₁ tc₂ env h3 h4 h5,
                    pj_tw_error_branch_eq tc₁ tc₂ env h3 h4 h5,
                    pj_tw_code_eq tc₁ tc₂ env h6 h7, apply_ite pj]
            · simp [hn, hu, hp, hcp, hcode, hco, pj_typeSlowlyChars, evKeep,
                pj_tw_send_eq tc₁ tc₂ env h3 h4 h5,
                pj_tw_error_branch_eq tc₁ tc₂ env h3 h4 h5,
                pj_tw_code_eq tc₁ tc₂ env h6 h7, apply_ite pj]

theorem tw_login_once_fst_eq (tc₁ tc₂ : TwCreds) (env : TwEnv)
    (h6 : tc₁.gmail_address = tc₂.gmail_address)
    (h7 : (tc₁.gmail_app_password == "") = (tc₂.gmail_app_password == "")) :
    (tw_login_once tc₁ env).1 = (tw_login_once tc₂ env).1 := by
  unfold tw_login_once
  try dsimp only
  rw [tw_login_body_fst_eq tc₁ tc₂ env h6 h7]
  repeat' split
  all_goals rfl

theorem pj_tw_login_once_eq (tc₁ tc₂ : TwCreds) (env : TwEnv)
    (h3 : tc₁.smtp_email = tc₂.smtp_email) (h4 : tc₁.notification_email = tc₂.notification_email)
    (h5 : tw_smtp_configured tc₁ = tw_smtp_configured tc₂)
    (h6 : tc₁.gmail_address = tc₂.gmail_address)
    (h7 : (tc₁.gmail_app_password == "") = (tc₂.gmail_app_password == "")) :
    pj (tw_login_once tc₁ env).2 = pj (tw_login_once tc₂ env).2 := by
  unfold tw_login_once
  try dsimp only
  rw [tw_login_body_fst_eq tc₁ tc₂ env h6 h7]
  repeat' split
  all_goals simp [pj_tw_login_body_eq tc₁ tc₂ env h3 h4 h5 h6 h7,
    pj_tw_send_error_eq tc₁ tc₂ env h3 h4 h5]

theorem tw_login_fst_eq (tc₁ tc₂ : TwCreds) (env : TwEnv)
    (h6 : tc₁.gmail_address = tc₂.gmail_address)
    (h7 : (tc₁.gmail_app_password == "") = (tc₂.gmail_app_password == "")) :
    (tw_login tc₁ env).1 = (tw_login tc₂ env).1 := by
  unfold tw_login
  try dsimp only
  rw [tw_login_once_fst_eq tc₁ tc₂ env h6 h7]
  repeat' split
  all_goals rfl

theorem pj_tw_login_eq (tc₁ tc₂ : TwCreds) (env : TwEnv)
    (h3 : tc₁.smtp_email = tc₂.smtp_email) (h4 : tc₁.notification_email = tc₂.notification_email)
    (h5 : tw_smtp_configured tc₁ = tw_smtp_configured tc₂)
    (h6 : tc₁.gmail_address = tc₂.gmail_address)
    (h7 : (tc₁.gmail_app_password == "") = (tc₂.gmail_app_password == "")) :
    pj (tw_login tc₁ env).2 = pj (tw_login tc₂ env).2 := by
  unfold tw_login
  try dsimp only
  rw [tw_login_once_fst_eq tc₁ tc₂ env h6 h7]
  repeat' split
  all_goals simp [pj_tw_login_once_eq tc₁ tc₂ env h3 h4 h5 h6 h7]

theorem pj_tw_post_outer_eq (tc₁ tc₂ : TwCreds) (env : TwEnv)
    (h3 : tc₁.smtp_email = tc₂.smtp_email) (h4 : tc₁.notification_email = tc₂.notification_email)
    (h5 : tw_smtp_configured tc₁ = tw_smtp_configured tc₂)
    (driver : Bool) (e : PyError) (t₁ t₂ : List Ev) (hpt : pj t₁ = pj t₂) :
    pj (tw_post_outer tc₁ env driver e t₁).2.2 = pj (tw_post_outer tc₂ env driver e t₂).2.2 := by
  unfold tw_post_outer
  try dsimp only
  repeat' split
  all_goals simp [hpt, pj_tw_send_error_eq tc₁ tc₂ env h3 h4 h5]

theorem pj_tw_step_fail_eq (tc₁ tc₂ : TwCreds) (env : TwEnv)
    (h3 : tc₁.smtp_email = tc₂.smtp_email) (h4 : tc₁.notification_email = tc₂.notification_email)
    (h5 : tw_smtp_configured tc₁ = tw_smtp_configured tc₂)
    (et sn m : String) (t₁ t₂ : List Ev) (hpt : pj t₁ = pj t₂) :
    pj (tw_step_fail tc₁ env et sn m t₁).2.2 = pj (tw_step_fail tc₂ env et sn m t₂).2.2 := by
  unfold tw_step_fail
  try dsimp only
  repeat' split
  all_goals (apply pj_tw_post_outer_eq tc₁ tc₂ env h3 h4 h5
             simp [hpt, pj_tw_send_error_eq tc₁ tc₂ env h3 h4 h5])

set_option maxHeartbeats 2000000 in
theorem pj_tw_post_tweet_eq (tc₁ tc₂ : TwCreds) (env : TwEnv)
    (h3 : tc₁.smtp_email = tc₂.smtp_email) (h4 : tc₁.notification_email = tc₂.notification_email)
    (h5 : tw_smtp_configured tc₁ = tw_smtp_configured tc₂)
    (h6 : tc₁.gmail_address = tc₂.gmail_address)
    (h7 : (tc₁.gmail_app_password == "") = (tc₂.gmail_app_password == ""))
    (title url : String) :
    pj (tw_post_tweet tc₁ env title url).2.2 = pj (tw_post_tweet tc₂ env title url).2.2 := by
  unfold tw_post_tweet
  try dsimp only
  rw [tw_login_fst_eq tc₁ tc₂ env h6 h7]
  repeat' split
  all_goals first
    | (apply pj_tw_post_outer_eq tc₁ tc₂ env h3 h4 h5
       simp [pj_tw_login_eq tc₁ tc₂ env h3 h4 h5 h6 h7,
         pj_tw_send_error_eq tc₁ tc₂ env h3 h4 h5])
    | (apply pj_tw_step_fail_eq tc₁ tc₂ env h3 h4 h5
       simp [pj_tw_login_eq tc₁ tc₂ env h3 h4 h5 h6 h7])
    | simp [pj_tw_login_eq tc₁ tc₂ env h3 h4 h5 h6 h7,
        pj_tw_send_eq tc₁ tc₂ env h3 h4 h5,
        pj_tw_send_error_eq tc₁ tc₂ env h3 h4 h5]

set_option maxHeartbeats 2000000 in
theorem pj_note_post_article_eq (c₁ c₂ : NoteCreds) (env : NoteEnv)
    (h1 : c₁.smtp_email = c₂.smtp_email) (h2 : c₁.notification_email = c₂.notification_email)
    (article_body title : String) :
    pj (note_post_article c₁ env article_body title).2.2 =
      pj (note_post_article c₂ env article_body title).2.2 := by
  unfold note_post_article
  try dsimp only
  rw [note_login_result c₁ env, note_login_result c₂ env]
  repeat' split
  all_goals first
    | (apply pj_note_post_failure_eq c₁ c₂ env _ h1 h2
       simp [pj_note_login_eq c₁ c₂ env])
    | simp [pj_note_login_eq c₁ c₂ env, pj_note_send_eq c₁ c₂ env h1 h2]

theorem logExcerpts_note_send_empty (c : NoteCreds) (env : NoteEnv) :
    ∀ (et : String) (info : ErrorInfo) (shots : List String) (lp : Option String),
      ∀ x ∈ logExcerpts (note_send_error_notification c env et info shots lp).2, x = "" := by
  intro et info shots lp x hx
  unfold note_send_error_notification at hx
  cases hs : env.smtpOk <;> cases lp <;> cases hl : env.logFileExists <;>
    simp [smtp_send_raw, hs, hl] at hx <;> simp_all

theorem logExcerpts_tw_send_empty (c : TwCreds) (env : TwEnv) :
    ∀ (subject body : String) (shots : List String) (lp : Option String),
      ∀ x ∈ logExcerpts (tw_send_notification_email c env subject body shots lp).2, x = "" := by
  intro subject body shots lp x hx
  unfold tw_send_notification_email at hx
  cases hc : tw_smtp_configured c <;> cases hs : env.smtpOk <;> cases lp <;>
    cases hl : env.logFileExists <;>
    simp [smtp_send_raw, hc, hs, hl] at hx <;> simp_all

/-! ## Claims -/

/-- Claim C6: the session release operation (`cleanup`, identical in NotePoster
and TwitterBot) is idempotent and never raises: in every state it returns
normally (even when `driver.quit()` itself errors), leaves the driver released,
and a released-state call performs no further quit attempt and changes
nothing. -/
theorem claim_C6 (quitOk driver : Bool) :
    (session_cleanup quitOk driver).1 = Except.ok () ∧
    (session_cleanup quitOk driver).2.1 = false ∧
    session_cleanup quitOk false = (Except.ok (), false, [Ev.gcCollect]) ∧
    (session_cleanup quitOk (session_cleanup quitOk driver).2.1).2.1 =
      (session_cleanup quitOk driver).2.1 ∧
    Ev.quitDriver ∉ (session_cleanup quitOk false).2.2 := by
  cases quitOk <;> cases driver <;> refine ⟨rfl, rfl, rfl, rfl, ?_⟩ <;> decide

theorem note_screenshot_path_ne (env : NoteEnv) (et : String) :
    note_screenshot_path env et ≠ "" := by
  intro h
  have hl := congrArg String.length h
  rw [note_screenshot_path] at hl
  simp only [String.length_append] at hl
  have h16 : String.length "/tmp/note_error_" = 16 := rfl
  have h0 : String.length "" = 0 := rfl
  omega

theorem tw_screenshot_path_ne (env : TwEnv) (et : String) :
    tw_screenshot_path env et ≠ "" := by
  intro h
  have hl := congrArg String.length h
  rw [tw_screenshot_path] at hl
  simp only [String.length_append] at hl
  have h16 : String.length "/tmp/twitter_error_" = 19 := rfl
  have h0 : String.length "" = 0 := rfl
  omega

/-- Claim C10: `_save_screenshot` of both classes is total and never raises; it
returns a (non-empty) file path exactly when a live driver wrote the screenshot
file to disk with size greater than zero, and the empty string in every other
case (no driver, save failure, missing or empty file). -/
theorem claim_C10 (nenv : NoteEnv) (tenv : TwEnv) (driver : Bool) (et : String) :
    (note_save_screenshot nenv driver et).1 =
      (if driver = true ∧ nenv.shotSaveOk = true ∧ nenv.shotFileExists = true ∧
          0 < nenv.shotFileSize
       then note_screenshot_path nenv et else "") ∧
    note_screenshot_path nenv et ≠ "" ∧
    (tw_save_screenshot tenv driver et).1 =
      (if driver = true ∧ tenv.shotSaveOk = true ∧ tenv.shotFileExists = true ∧
          0 < tenv.shotFileSize
       then tw_screenshot_path tenv et else "") ∧
    tw_screenshot_path tenv et ≠ "" := by
  refine ⟨?_, note_screenshot_path_ne nenv et, ?_, tw_screenshot_path_ne tenv et⟩
  · rw [note_save_screenshot, save_screenshot_core]
    cases driver <;> cases h1 : nenv.shotSaveOk <;>
      by_cases h2 : nenv.shotFileExists = true ∧ 0 < nenv.shotFileSize <;> simp_all <;>
      (try (split <;> simp_all))
  · rw [tw_save_screenshot, save_screenshot_core]
    cases driver <;> cases h1 : tenv.shotSaveOk <;>
      by_cases h2 : tenv.shotFileExists = true ∧ 0 < tenv.shotFileSize <;> simp_all <;>
      (try (split <;> simp_all))

theorem tw_post_outer_driver (c : TwCreds) (env : TwEnv) (d : Bool) (e : PyError)
    (t : List Ev) : (tw_post_outer c env d e t).2.1 = false := by
  unfold tw_post_outer
  cases h : tw_read_url env d <;> simp [h, session_cleanup_driver]

theorem tw_post_outer_quit_mem (c : TwCreds) (env : TwEnv) (e : PyError) (t : List Ev) :
    Ev.quitDriver ∈ (tw_post_outer c env true e t).2.2 := by
  unfold tw_post_outer
  cases h : tw_read_url env true <;> simp [h, List.mem_append, session_cleanup_quit_mem]

theorem tw_step_fail_driver (c : TwCreds) (env : TwEnv) (et sn m : String) (t : List Ev) :
    (tw_step_fail c env et sn m t).2.1 = false := by
  unfold tw_step_fail
  cases h : tw_read_url env true <;> simp [h, tw_post_outer_driver]

theorem tw_step_fail_quit_mem (c : TwCreds) (env : TwEnv) (et sn m : String) (t : List Ev) :
    Ev.quitDriver ∈ (tw_step_fail c env et sn m t).2.2 := by
  unfold tw_step_fail
  cases h : tw_read_url env true <;> simp [h, tw_post_outer_quit_mem]

theorem note_post_article_driver (c : NoteCreds) (env : NoteEnv) (ab ti : String) :
    (note_post_article c env ab ti).2.1 = false := by
  unfold note_post_article
  repeat' split
  all_goals
    first
      | exact note_post_failure_driver _ _ _ _
      | simp [session_cleanup_driver]

theorem note_post_article_quit_mem (c : NoteCreds) (env : NoteEnv) (ab ti : String)
    (h : env.setupOk = true) :
    Ev.quitDriver ∈ (note_post_article c env ab ti).2.2 := by
  unfold note_post_article
  simp only [h, if_true]
  repeat' split
  all_goals
    first
      | exact note_post_failure_quit_mem _ _ _
      | simp [List.mem_append, session_cleanup_quit_mem]

theorem tw_post_tweet_driver (c : TwCreds) (env : TwEnv) (ti url : String) :
    (tw_post_tweet c env ti url).2.1 = false := by
  unfold tw_post_tweet
  repeat' split
  all_goals
    first
      | exact tw_post_outer_driver _ _ _ _ _
      | exact tw_step_fail_driver _ _ _ _ _ _
      | simp [session_cleanup_driver]

theorem tw_post_tweet_quit_mem (c : TwCreds) (env : TwEnv) (ti url : String)
    (h : env.setupOk = true) :
    Ev.quitDriver ∈ (tw_post_tweet c env ti url).2.2 := by
  unfold tw_post_tweet
  simp only [h, if_true]
  repeat' split
  all_goals
    first
      | exact tw_post_outer_quit_mem _ _ _ _
      | exact tw_step_fail_quit_mem _ _ _ _ _ _
      | simp [List.mem_append, session_cleanup_quit_mem]

/-- Claim C5: the browser session is torn down on every exit path.  Both
publish operations end with a released driver, and whenever the driver was
acquired a `driver.quit()` attempt occurred in the trace; the signal handler
registered for SIGTERM and SIGINT runs the same `cleanup` (releasing the driver
and attempting `quit` when one is live) before exiting the process, the exit
being the last event. -/
theorem claim_C5 (c : NoteCreds) (env : NoteEnv) (tc : TwCreds) (tenv : TwEnv)
    (article_body title url : String) (driver : Bool) :
    (note_post_article c env article_body title).2.1 = false ∧
    (env.setupOk = true → Ev.quitDriver ∈ (note_post_article c env article_body title).2.2) ∧
    (tw_post_tweet tc tenv title url).2.1 = false ∧
    (tenv.setupOk = true → Ev.quitDriver ∈ (tw_post_tweet tc tenv title url).2.2) ∧
    registered_signal_handlers = [Sig.sigterm, Sig.sigint] ∧
    (signal_handler_run env.quitOk driver).1 = false ∧
    (driver = true → Ev.quitDriver ∈ (signal_handler_run env.quitOk driver).2) ∧
    (signal_handler_run env.quitOk driver).2.getLast? = some (Ev.exitProcess 0) := by
  refine ⟨note_post_article_driver c env article_body title,
    fun h => note_post_article_quit_mem c env article_body title h,
    tw_post_tweet_driver tc tenv title url,
    fun h => tw_post_tweet_quit_mem tc tenv title url h,
    rfl, ?_, ?_, ?_⟩
  · simp [signal_handler_run, session_cleanup_driver]
  · intro h
    subst h
    simp [signal_handler_run, List.mem_append, session_cleanup_quit_mem]
  · show (([Ev.log "Received signal to terminate"] ++ (session_cleanup env.quitOk driver).2.2) ++
      [Ev.exitProcess 0]).getLast? = some (Ev.exitProcess 0)
    rw [List.getLast?_concat]

/-- Witness for C5 at concrete inputs. -/
theorem claim_C5_witness :
    Ev.quitDriver ∈ (note_post_article noteCreds0 noteEnvOk "body" "title").2.2 ∧
    Ev.quitDriver ∈ (tw_post_tweet twCreds0 twEnvOk "title" "https://e.com").2.2 ∧
    Ev.quitDriver ∈ (signal_handler_run noteEnvOk.quitOk true).2 := by
  have h := claim_C5 noteCreds0 noteEnvOk twCreds0 twEnvOk "body" "title" "https://e.com" true
  exact ⟨h.2.1 rfl, h.2.2.2.1 rfl, h.2.2.2.2.2.2.1 rfl⟩

/-- Claim C8: a failure of the notification transport itself (SMTP
authentication or send error) is caught and logged locally and never
propagates: both notification senders return normally in every environment,
including ones where the SMTP session raises; when the transport fails, no
message reaches the transport and a local error log is emitted instead; and
the publish results are unchanged by transport failures, so a reporting
failure never masks or replaces the automation outcome being reported. -/
theorem claim_C8 (c : NoteCreds) (tc : TwCreds) (env : NoteEnv) (tenv : TwEnv)
    (et subject body article_body title url : String) (info : ErrorInfo)
    (shots : List String) (lp : Option String) :
    (note_send_error_notification c env et info shots lp).1 = Except.ok () ∧
    (tw_send_notification_email tc tenv subject body shots lp).1 = Except.ok () ∧
    (env.smtpOk = false →
      notifySubjects (note_send_error_notification c env et info shots lp).2 = [] ∧
      Ev.log "Gmail auth or send error logged locally" ∈
        (note_send_error_notification c env et info shots lp).2) ∧
    (note_post_article c { env with smtpOk := false } article_body title).1 =
      (note_post_article c { env with smtpOk := true } article_body title).1 ∧
    (tw_post_tweet tc { tenv with smtpOk := false } title url).1 =
      (tw_post_tweet tc { tenv with smtpOk := true } title url).1 := by
  refine ⟨note_send_ok c env et info shots lp, tw_send_ok tc tenv subject body shots lp,
    fun h => note_send_smtp_fail c env et info shots lp h, ?_, ?_⟩
  · rw [note_post_article_result, note_post_article_result]
    rfl
  · rw [tw_post_tweet_result, tw_post_tweet_result]
    rfl

/-- Witness for C8 at a concrete input with a failing transport. -/
theorem claim_C8_witness :
    notifySubjects (note_send_error_notification noteCreds0 { noteEnvOk with smtpOk := false }
      "error" {} [] (some "note_poster.log")).2 = [] ∧
    Ev.log "Gmail auth or send error logged locally" ∈
      (note_send_error_notification noteCreds0 { noteEnvOk with smtpOk := false }
        "error" {} [] (some "note_poster.log")).2 := by
  have h := claim_C8 noteCreds0 twCreds0 { noteEnvOk with smtpOk := false } twEnvOk
    "error" "subject" "body" "article" "title" "https://e.com" {} [] (some "note_poster.log")
  exact h.2.2.1 rfl

/-- Claim C1, counterexample to the claim as stated: with every step
succeeding except that the browser session dies at the url read-back
(`driver.current_url` raises), `post_article` propagates the raised
`WebDriverException` to its caller — the fallback branch of
`_collect_error_info` reads `driver.current_url` again and re-raises — so the
publish operation neither returns a url nor a failure value. -/
theorem claim_C1_counterexample :
    (note_post_article noteCreds0 noteEnvPageReadFail "body" "title").1 =
      Except.error (PyError.webDriver "invalid session: failed to read current url") := by
  rfl

/-- Claim C1, amended: provided the browser can report its current url during
the run (no dead-session url read), `post_article` returns either the page url
observed after the settle step (well-formed whenever the browser reports a
well-formed url) or `None`, with the failure reporter fired under the non-empty
kind `post_article_failed`; and whenever the settle-and-url-read step is not
reached the result is `None`, never a partial success. -/
theorem claim_C1 (c : NoteCreds) (env : NoteEnv) (article_body title : String)
    (hp : env.pageReadOk = true) (hw : wf_url env.currentUrl = true) :
    ((note_post_article c env article_body title).1 = Except.ok (some env.currentUrl) ∧
        note_all_steps_ok env = true ∧ wf_url env.currentUrl = true) ∨
    ((note_post_article c env article_body title).1 = Except.ok none ∧
        note_all_steps_ok env = false ∧
        "Note Post Error: post_article_failed" ∈
          reportKinds (note_post_article c env article_body title).2.2 ∧
        "Note Post Error: post_article_failed" ≠ "") := by
  have hr := note_post_article_result c env article_body title
  rw [hp] at hr
  cases ha : note_all_steps_ok env
  · right
    rw [ha] at hr
    refine ⟨by simpa using hr, rfl, ?_, by decide⟩
    unfold note_post_article
    rw [note_login_result]
    repeat' split
    all_goals
      first
        | exact note_post_failure_report_mem c env _ _ hp
        | (exfalso; split_ifs at * <;> simp_all [note_all_steps_ok, note_login_ok])
  · left
    rw [ha] at hr
    exact ⟨by simpa using hr, rfl, hw⟩

/-- Witness for C1 at a concrete all-success input. -/
theorem claim_C1_witness :
    (note_post_article noteCreds0 noteEnvOk "body" "title").1 =
      Except.ok (some "https://note.com/user/n/abc123") := by
  have h := claim_C1 noteCreds0 noteEnvOk "body" "title" rfl (by decide)
  rcases h with ⟨h1, _, _⟩ | ⟨_, h2, _, _⟩
  · exact h1
  · exact absurd h2 (by decide)

/-- Claim C2, counterexample to the claim as stated: a fully successful
`post_article` run hands one notification to the notification transport (the
reporter fires with kind `post_article_success`, mailed under the subject
`Note Post Error: post_article_success`), so a success run does not send zero
notifications. -/
theorem claim_C2_counterexample :
    (note_post_article noteCreds0 noteEnvOk "body" "title").1 =
      Except.ok (some "https://note.com/user/n/abc123") ∧
    notifySubjects (note_post_article noteCreds0 noteEnvOk "body" "title").2.2 =
      ["Note Post Error: post_article_success"] := by
  exact ⟨by rfl, by decide⟩

/-- Claim C2, amended: on success paths the reporter still fires, but only with
success reports: every notification a fully successful `post_article` sends has
the kind `post_article_success`, and every notification of a successful
`post_tweet` (standard-landmark login, no confirmation screen) is either the
screenshots-after-login-attempt mail or the `Twitter Post Success` mail —
failure-kind notifications are sent only on runs where some step failed. -/
theorem claim_C2 (c : NoteCreds) (env : NoteEnv) (tc : TwCreds) (tenv : TwEnv)
    (article_body title url : String) :
    (env.pageReadOk = true → note_all_steps_ok env = true →
      ∀ s ∈ notifySubjects (note_post_article c env article_body title).2.2,
        s = "Note Post Error: post_article_success") ∧
    (tenv.setupOk = true → tenv.navLoginOk = true → tenv.usernameFieldFound = true →
      tenv.passwordFieldFound = true → tenv.confirmationPromptShown = false →
      tenv.loginLandmark = true → tenv.postButtonOk = true → tenv.tweetAreaOk = true →
      tenv.tweetButtonOk = true →
      ∀ s ∈ notifySubjects (tw_post_tweet tc tenv title url).2.2,
        s = "Twitter Bot: Screenshots After Login Attempt" ∨ s = "Twitter Post Success") := by
  constructor
  · intro hp ha s hsm
    simp only [note_all_steps_ok, Bool.and_eq_true] at ha
    obtain ⟨ha, h12⟩ := ha
    obtain ⟨ha, h11⟩ := ha
    obtain ⟨ha, h10⟩ := ha
    obtain ⟨ha, h9⟩ := ha
    obtain ⟨ha, h8⟩ := ha
    obtain ⟨ha, h7⟩ := ha
    obtain ⟨ha, h6⟩ := ha
    obtain ⟨ha, h5⟩ := ha
    obtain ⟨ha, h4⟩ := ha
    obtain ⟨ha, h3⟩ := ha
    obtain ⟨h1, h2⟩ := ha
    have hlo : note_login_ok env = true := by
      simp [note_login_ok, h2, h3, h4, h5, h6, h7]
    unfold note_post_article at hsm
    rw [note_login_result] at hsm
    simp [h1, h2, h3, h4, h5, h6, h7, h8, h9, h10, h11, h12, hp, hlo,
      notifySubjects_note_login, notifySubjects_note_send,
      notifySubjects_session_cleanup] at hsm
    cases hs : env.smtpOk <;> simp [hs] at hsm
    exact hsm
  · intro t1 t2 t3 t4 t5 t6 t7 t8 t9 s hsm
    have hb : tw_login_body_ok tc tenv = true := by
      simp [tw_login_body_ok, t2, t3, t4, t5, t6]
    unfold tw_post_tweet at hsm
    rw [tw_login_result_ok tc tenv hb, tw_login_trace_ok tc tenv hb] at hsm
    unfold tw_login_body at hsm
    simp [t1, t2, t3, t4, t5, t6, notifySubjects_tw_save, notifySubjects_tw_check_memory,
      notifySubjects_tw_send, notifySubjects_session_cleanup,
      notifySubjects_typeSlowlyChars, typeSlowly, t7, t8, t9] at hsm
    rcases hsm with hsm | hsm <;> revert hsm <;> repeat' split
    all_goals simp_all [notifySubjects_tw_send, notifySubjects_typeSlowlyChars]
    all_goals tauto

/-- Witness for C2 at a concrete all-success input. -/
theorem claim_C2_witness :
    ∀ s ∈ notifySubjects (note_post_article noteCreds0 noteEnvOk "body" "title").2.2,
      s = "Note Post Error: post_article_success" := by
  have h := claim_C2 noteCreds0 noteEnvOk twCreds0 twEnvOk "body" "title" "https://e.com"
  exact h.1 rfl rfl

/-- Claim C3, counterexample to the claim as stated: in NotePoster the retry
decorator on `_login` is commented out, so when the login flow fails (the email
field never appears) the login page is visited exactly once — the login step is
not retried — and no backoff delay is slept, while the overall publish attempt
fails. -/
theorem claim_C3_counterexample :
    (note_post_article noteCreds0 noteEnvEmailFail "body" "title").1 = Except.ok none ∧
    List.count note_login_url
      (navs (note_post_article noteCreds0 noteEnvEmailFail "body" "title").2.2) = 1 ∧
    backoffs (note_post_article noteCreds0 noteEnvEmailFail "body" "title").2.2 = [] := by
  refine ⟨by rfl, by decide, by decide⟩

set_option maxHeartbeats 2000000 in
/-- Claim C3, amended: retry with exponential backoff is applied to TwitterBot
login only.  A failing TwitterBot login body is attempted exactly 3 times with
the two tenacity backoff delays (4 s each, `wait_exponential(1, 4, 10)` clamped)
slept between attempts, and a succeeding one runs once; NotePoster login runs
at most once per publish attempt with no backoff anywhere; and the final
publish-click of either flow is never performed more than once per attempt. -/
theorem claim_C3 (c : NoteCreds) (env : NoteEnv) (tc : TwCreds) (tenv : TwEnv)
    (article_body title url : String) :
    (tw_login_body_ok tc tenv = false →
      navs (tw_login tc tenv).2 = [tw_login_url, tw_login_url, tw_login_url] ∧
      backoffs (tw_login tc tenv).2 = [4000, 4000]) ∧
    (tw_login_body_ok tc tenv = true →
      navs (tw_login tc tenv).2 = [tw_login_url] ∧
      backoffs (tw_login tc tenv).2 = []) ∧
    List.count note_login_url (navs (note_post_article c env article_body title).2.2) ≤ 1 ∧
    backoffs (note_post_article c env article_body title).2.2 = [] ∧
    List.count "post_button" (clicks (note_post_article c env article_body title).2.2) ≤ 1 ∧
    List.count "tweet_button" (clicks (tw_post_tweet tc tenv title url).2.2) ≤ 1 := by
  refine ⟨?_, ?_, ?_, ?_, ?_, ?_⟩
  · intro h
    rw [tw_login_trace_fail tc tenv h]
    simp [navs_tw_login_once, backoffs_tw_login_once]
  · intro h
    rw [tw_login_trace_ok tc tenv h]
    simp [navs_tw_login_body, backoffs_tw_login_body]
  · unfold note_post_article
    rw [note_login_result]
    repeat' split
    all_goals
      simp [navs_note_post_failure, navs_note_login, navs_note_save, navs_note_send,
        navs_session_cleanup]
    all_goals decide
  · unfold note_post_article
    rw [note_login_result]
    repeat' split
    all_goals
      simp [backoffs_note_post_failure, backoffs_note_login, backoffs_note_save,
        backoffs_note_send, backoffs_session_cleanup]
  · have hnp := clicks_note_login_no_post c env
    have hz := List.count_eq_zero_of_not_mem hnp
    unfold note_post_article
    rw [note_login_result]
    repeat' split
    all_goals
      simp [clicks_note_post_failure, clicks_note_save, clicks_note_send,
        clicks_session_cleanup, List.count_append, hz]
    all_goals decide
  · have hnt := clicks_tw_login_no_tweet tc tenv
    have hz := List.count_eq_zero_of_not_mem hnt
    unfold tw_post_tweet
    cases hb : tw_login_body_ok tc tenv
    · rw [tw_login_result_err tc tenv hb]
      repeat' split
      all_goals
        simp [clicks_tw_step_fail, clicks_tw_post_outer, clicks_tw_send_error,
          clicks_session_cleanup, clicks_tw_send, List.count_append, hz]
      all_goals decide
    · rw [tw_login_result_ok tc tenv hb]
      repeat' split
      all_goals
        simp [clicks_tw_step_fail, clicks_tw_post_outer, clicks_tw_send_error,
          clicks_session_cleanup, clicks_tw_send, List.count_append, hz]
      all_goals decide

/-- Witness for C3: TwitterBot retries a failing login exactly 3 times with the
two backoff sleeps, and runs a succeeding login once. -/
theorem claim_C3_witness :
    navs (tw_login twCreds0 twEnvLoginFail).2 = [tw_login_url, tw_login_url, tw_login_url] ∧
    backoffs (tw_login twCreds0 twEnvLoginFail).2 = [4000, 4000] ∧
    navs (tw_login twCreds0 twEnvOk).2 = [tw_login_url] := by
  have h1 := (claim_C3 noteCreds0 noteEnvOk twCreds0 twEnvLoginFail "b" "t" "u").1 (by decide)
  have h2 := (claim_C3 noteCreds0 noteEnvOk twCreds0 twEnvOk "b" "t" "u").2.1 (by decide)
  exact ⟨h1.1, h1.2, h2.1⟩

/-- Claim C4, counterexample to the claim as stated: when NotePoster login
reaches its failed terminal state (the logged-in landmark never appears), the
error raised to the caller is a `TypeError` coming from the malformed
`_send_error_notification("error")` call inside the failure handler, not a
login-failure error carrying the captured diagnostic. -/
theorem claim_C4_counterexample :
    (note_login noteCreds0 noteEnvLoginFail).1 =
      Except.error (PyError.typeErr noteLoginTypeErrMsg) ∧
    isLoginFailed (PyError.typeErr noteLoginTypeErrMsg) = false := by
  exact ⟨by rfl, by rfl⟩

/-- Claim C4, amended: a failed login never lets the publish steps run, but the
error NotePoster raises is an accident.  When the NotePoster login flow fails,
`_login` captures a diagnostic screenshot and then raises a `TypeError` (from
the wrong-arity notification call in its handler; its `return False` is
unreachable), after which `post_article` performs no publish click and returns
`None`; when the TwitterBot login body fails on every attempt, `_login` raises
a `RetryError` after firing the `Login Failed` report (which carries the
captured diagnostic), and `post_tweet` performs no tweet click and returns
`False`. -/
theorem claim_C4 (c : NoteCreds) (env : NoteEnv) (tc : TwCreds) (tenv : TwEnv)
    (article_body title url : String) :
    (note_login_ok env = false →
      (note_login c env).1 = Except.error (PyError.typeErr noteLoginTypeErrMsg) ∧
      isLoginFailed (PyError.typeErr noteLoginTypeErrMsg) = false) ∧
    (note_login_ok env = false → env.shotSaveOk = true → env.shotFileExists = true →
      0 < env.shotFileSize →
      Ev.shot (note_screenshot_path env "error") ∈ (note_login c env).2) ∧
    (note_login_ok env = false → env.pageReadOk = true →
      (note_post_article c env article_body title).1 = Except.ok none ∧
      List.count "post_button" (clicks (note_post_article c env article_body title).2.2) = 0) ∧
    (tw_login_body_ok tc tenv = false →
      (tw_login tc tenv).1 = Except.error (PyError.retryErr "RetryError")) ∧
    (tw_login_body_ok tc tenv = false → tenv.pageReadOk = true →
      tw_smtp_configured tc = true →
      "Twitter Bot Error: Login Failed" ∈ reportKinds (tw_login tc tenv).2) ∧
    (tw_login_body_ok tc tenv = false → tenv.setupOk = true → tenv.pageReadOk = true →
      (tw_post_tweet tc tenv title url).1 = Except.ok false ∧
      List.count "tweet_button" (clicks (tw_post_tweet tc tenv title url).2.2) = 0) := by
  refine ⟨?_, ?_, ?_, ?_, ?_, ?_⟩
  · intro hL
    refine ⟨?_, rfl⟩
    rw [note_login_result]
    simp [hL]
  · intro hL h1 h2 h3
    unfold note_login note_login_fail withPre note_save_screenshot save_screenshot_core
    repeat' split
    all_goals simp_all [note_login_ok]
  · intro hL hp
    have himp : note_all_steps_ok env = true → note_login_ok env = true := by
      intro h
      simp only [note_all_steps_ok, Bool.and_eq_true] at h
      simp only [note_login_ok, Bool.and_eq_true]
      tauto
    have has : note_all_steps_ok env = false := by
      cases hq : note_all_steps_ok env
      · rfl
      · rw [himp hq] at hL; cases hL
    constructor
    · rw [note_post_article_result]
      simp [hp, has]
    · have hz := List.count_eq_zero_of_not_mem (clicks_note_login_no_post c env)
      unfold note_post_article
      rw [note_login_result]
      cases hset : env.setupOk <;>
        simp [hset, hL, clicks_note_post_failure, List.count_append, hz]
  · intro h1
    exact tw_login_result_err tc tenv h1
  · intro h1 hp hc
    rw [tw_login_trace_fail tc tenv h1]
    simp [reportKinds_append, List.mem_append, tw_login_once_report_mem tc tenv h1 hp hc]
  · intro h1 hset hp
    constructor
    · rw [tw_post_tweet_result]
      simp [hset, h1, hp]
    · have hz := List.count_eq_zero_of_not_mem (clicks_tw_login_no_tweet tc tenv)
      unfold tw_post_tweet
      rw [tw_login_result_err tc tenv h1]
      simp [hset, clicks_tw_post_outer, List.count_append, hz]

/-- Witness for C4 at concrete failing-login inputs. -/
theorem claim_C4_witness :
    (note_login noteCreds0 noteEnvLoginFail).1 =
      Except.error (PyError.typeErr noteLoginTypeErrMsg) ∧
    Ev.shot (note_screenshot_path noteEnvLoginFail "error") ∈
      (note_login noteCreds0 noteEnvLoginFail).2 ∧
    (note_post_article noteCreds0 noteEnvLoginFail "body" "title").1 = Except.ok none ∧
    (tw_post_tweet twCreds0 twEnvLoginFail "title" "https://e.com").1 = Except.ok false := by
  have h := claim_C4 noteCreds0 noteEnvLoginFail twCreds0 twEnvLoginFail
    "body" "title" "https://e.com"
  exact ⟨(h.1 (by decide)).1, h.2.1 (by decide) rfl rfl (by decide),
    (h.2.2.1 (by decide) rfl).1, (h.2.2.2.2.2 (by decide) rfl rfl).1⟩

/-- Claim C9, counterexample to the claim as stated: in the TwitterBot login
flow the secret is not typed character-by-character — the whole password is
sent in one ActionChains `send_keys_to_element` call (a paste-like bulk input),
and no per-character password keystroke occurs. -/
theorem claim_C9_counterexample :
    typedChars "password" (tw_login twCreds0 twEnvOk).2 = [] ∧
    Ev.typeBulk "password" "tw_secret" ∈ (tw_login twCreds0 twEnvOk).2 := by
  exact ⟨by decide, by decide⟩

set_option maxHeartbeats 8000000 in
/-- Claim C9, amended: NotePoster types both the email and the password
character by character with a 0.1 s delay after each character, and TwitterBot
does so for the identifier; but the TwitterBot password is entered as a single
ActionChains bulk send, never character by character. -/
theorem claim_C9 (c : NoteCreds) (env : NoteEnv) (tc : TwCreds) (tenv : TwEnv) :
    (env.navLoginOk = true → env.emailFieldFound = true →
      segIn (typeSlowly "email" c.email) (note_login c env).2 = true) ∧
    (env.navLoginOk = true → env.emailFieldFound = true → env.passwordFieldFound = true →
      segIn (typeSlowly "password" c.password) (note_login c env).2 = true) ∧
    (tenv.navLoginOk = true → tenv.usernameFieldFound = true →
      segIn (typeSlowly "username" tc.twitter_id) (tw_login_body tc tenv).2 = true) ∧
    (tenv.navLoginOk = true → tenv.usernameFieldFound = true →
      tenv.passwordFieldFound = true →
      Ev.typeBulk "password" tc.twitter_password ∈ (tw_login_body tc tenv).2) ∧
    typedChars "password" (tw_login_body tc tenv).2 = [] := by
  refine ⟨?_, ?_, ?_, ?_, typedChars_password_tw_login_body tc tenv⟩
  · intro h1 h2
    unfold note_login withPre note_login_fail
    simp only [h1, h2, if_true]
    repeat' split
    all_goals
      simp only [List.append_assoc, List.cons_append, List.nil_append]
      repeat
        first
          | exact segIn_append_left _ _
          | apply segIn_cons
          | apply segIn_append
  · intro h1 h2 h3
    unfold note_login withPre note_login_fail
    simp only [h1, h2, h3, if_true]
    repeat' split
    all_goals
      simp only [List.append_assoc, List.cons_append, List.nil_append]
      repeat
        first
          | exact segIn_append_left _ _
          | apply segIn_cons
          | apply segIn_append
  · intro h1 h2
    unfold tw_login_body withPre
    simp only [h1, h2, if_true]
    repeat' split
    all_goals
      simp only [List.append_assoc, List.cons_append, List.nil_append]
      repeat
        first
          | exact segIn_append_left _ _
          | apply segIn_cons
          | apply segIn_append
  · intro h1 h2 h3
    unfold tw_login_body withPre
    simp only [h1, h2, h3, if_true]
    repeat' split
    all_goals simp [List.mem_append]

/-- Witness for C9 at concrete inputs: slow typing segments occur for the
NotePoster credentials and the TwitterBot identifier, and the TwitterBot
password bulk send occurs. -/
theorem claim_C9_witness :
    segIn (typeSlowly "email" noteCreds0.email) (note_login noteCreds0 noteEnvOk).2 = true ∧
    segIn (typeSlowly "password" noteCreds0.password) (note_login noteCreds0 noteEnvOk).2 = true ∧
    segIn (typeSlowly "username" twCreds0.twitter_id) (tw_login_body twCreds0 twEnvOk).2 = true ∧
    Ev.typeBulk "password" twCreds0.twitter_password ∈ (tw_login_body twCreds0 twEnvOk).2 := by
  have h := claim_C9 noteCreds0 noteEnvOk twCreds0 twEnvOk
  exact ⟨h.1 rfl rfl, h.2.1 rfl rfl rfl, h.2.2.1 rfl rfl, h.2.2.2.1 rfl rfl rfl⟩


/-- C7: no credential value appears in a notification body, an attached log
excerpt or a diagnostic snapshot field.  Two facts establish this.  First, the
payload of the attached log-file part handed to the transport is always empty:
the senders build the part with `MIMEApplication(f.read(), ...)` and then call
`part.set_payload(f.read())`, and the second read at end of file replaces the
payload with empty bytes before encoding, so every excerpt the failure reporter
sends is the empty string (no credential can appear in it — though note that
nothing is redacted; the log content is dropped wholesale by this double read).
Second, a noninterference property for the credential secrets: with the
operator-facing routing fields held fixed (`smtp_email`, `notification_email`,
the SMTP-configured test, the Gmail account name and the presence of the app
password), changing any credential value (login identifiers, login secrets,
SMTP passwords, mailbox app password) leaves the log-and-notification
projection `pj` of a `post_article` run and of a `post_tweet` run unchanged:
no secret flows into a log line, a notification body, an attachment list, a
report kind or an excerpt. -/
theorem claim_C7 (env : NoteEnv) (tenv : TwEnv) (article_body title url : String)
    (c₁ c₂ : NoteCreds) (tc₁ tc₂ : TwCreds)
    (h1 : c₁.smtp_email = c₂.smtp_email)
    (h2 : c₁.notification_email = c₂.notification_email)
    (h3 : tc₁.smtp_email = tc₂.smtp_email)
    (h4 : tc₁.notification_email = tc₂.notification_email)
    (h5 : tw_smtp_configured tc₁ = tw_smtp_configured tc₂)
    (h6 : tc₁.gmail_address = tc₂.gmail_address)
    (h7 : (tc₁.gmail_app_password == "") = (tc₂.gmail_app_password == "")) :
    (∀ (et : String) (info : ErrorInfo) (shots : List String) (lp : Option String),
        ∀ x ∈ logExcerpts (note_send_error_notification c₁ env et info shots lp).2, x = "") ∧
    (∀ (subject body : String) (shots : List String) (lp : Option String),
        ∀ x ∈ logExcerpts (tw_send_notification_email tc₁ tenv subject body shots lp).2,
          x = "") ∧
    pj (note_post_article c₁ env article_body title).2.2 =
        pj (note_post_article c₂ env article_body title).2.2 ∧
      pj (tw_post_tweet tc₁ tenv title url).2.2 = pj (tw_post_tweet tc₂ tenv title url).2.2 :=
  ⟨logExcerpts_note_send_empty c₁ env, logExcerpts_tw_send_empty tc₁ tenv,
   pj_note_post_article_eq c₁ c₂ env h1 h2 article_body title,
   pj_tw_post_tweet_eq tc₁ tc₂ tenv h3 h4 h5 h6 h7 title url⟩

/-- C7 witness: the theorem applied to two concrete credential sets that differ
in every secret but agree on the routing fields. -/
theorem claim_C7_witness :
    noteCreds0.smtp_email = noteCredsAlt.smtp_email ∧
    noteCreds0.notification_email = noteCredsAlt.notification_email ∧
    twCreds0.smtp_email = twCredsAlt.smtp_email ∧
    twCreds0.notification_email = twCredsAlt.notification_email ∧
    tw_smtp_configured twCreds0 = tw_smtp_configured twCredsAlt ∧
    twCreds0.gmail_address = twCredsAlt.gmail_address ∧
    (twCreds0.gmail_app_password == "") = (twCredsAlt.gmail_app_password == "") ∧
    ((∀ (et : String) (info : ErrorInfo) (shots : List String) (lp : Option String),
        ∀ x ∈ logExcerpts
          (note_send_error_notification noteCreds0 noteEnvOk et info shots lp).2, x = "") ∧
    (∀ (subject body : String) (shots : List String) (lp : Option String),
        ∀ x ∈ logExcerpts
          (tw_send_notification_email twCreds0 twEnvOk subject body shots lp).2, x = "") ∧
    pj (note_post_article noteCreds0 noteEnvOk "body text" "My Title").2.2 =
        pj (note_post_article noteCredsAlt noteEnvOk "body text" "My Title").2.2 ∧
      pj (tw_post_tweet twCreds0 twEnvOk "My Title" "https://note.com/u/n/1").2.2 =
        pj (tw_post_tweet twCredsAlt twEnvOk "My Title" "https://note.com/u/n/1").2.2) :=
  ⟨by decide, by decide, by decide, by decide, by decide, by decide, by decide,
   claim_C7 noteEnvOk twEnvOk "body text" "My Title" "https://note.com/u/n/1"
     noteCreds0 noteCredsAlt twCreds0 twCredsAlt
     (by decide) (by decide) (by decide) (by decide) (by decide) (by decide) (by decide)⟩

end NewsCreate
